import Mathlib

/-!
Verification of the ID-metric engine of `trackeval/metrics/identity.py`
(`Identity` and `TrackIdentity`).

The per-frame data and the global accumulation, the two cost-matrix
constructions, the metric derivation and the aggregation functions are
embedded as executable Lean definitions, translated statement by statement
from the Python source.  The external assignment routine
(`scipy.optimize.linear_sum_assignment`) is out of scope of the repository;
it is modelled by an explicit assignment argument together with the
predicate `IsOptimalAssignment`, the contract the source relies on (a
bijection minimising the summed cost).

Numeric conventions of the embedding: the numpy float arrays hold exact
small-integer (or small-rational) values in every quantity the claims are
about, so they are embedded as `ℚ`.  Counts are `ℕ` and cast where they
enter the float arrays.  One numpy subtlety is embedded faithfully: fancy
indexing with `+= 1` applies a single increment per *distinct* index, so the
per-frame contribution to each accumulator cell is an indicator (0 or 1),
not a multiplicity.  Likewise `x / 0.0` produces `nan`/`inf` in numpy and
any `≤` comparison with them is `False`; the rejection test of
`TrackIdentity` therefore carries an explicit nonzero-denominator guard.
-/

namespace TrackEval

/-- One frame of a sequence: the global gt identity indices present, the
global tracker identity indices present, and the similarity matrix indexed
by local (positional) indices. -/
structure Frame where
  gt_ids : List ℕ
  tracker_ids : List ℕ
  similarity_scores : ℕ → ℕ → ℚ

/-- The per-sequence input consumed by `eval_sequence` (the fields of the
`data` dictionary that the two metrics read). -/
structure SequenceData where
  num_gt_ids : ℕ
  num_tracker_ids : ℕ
  num_gt_dets : ℕ
  num_tracker_dets : ℕ
  frames : List Frame

/-- One frame's contribution to `potential_matches_count[g, t]`
(source line 59): `1` exactly when some local pair `(i, j)` has
`similarity_scores[t][i, j] >= threshold` and carries the global ids
`(g, t)`; numpy's fancy-indexed `+= 1` increments once per distinct global
pair, hence an indicator. -/
def matchStep (threshold : ℚ) (f : Frame) (g t : ℕ) : ℕ :=
  if ∃ i ∈ Finset.range f.gt_ids.length, ∃ j ∈ Finset.range f.tracker_ids.length,
      f.gt_ids.getD i 0 = g ∧ f.tracker_ids.getD j 0 = t ∧
      threshold ≤ f.similarity_scores i j
  then 1 else 0

/-- One frame's contribution to `gt_id_count[g]` (source line 62): an
indicator of presence, by the same fancy-indexing rule. -/
def gtStep (f : Frame) (g : ℕ) : ℕ := if g ∈ f.gt_ids then 1 else 0

/-- One frame's contribution to `tracker_id_count[t]` (source line 63). -/
def trackerStep (f : Frame) (t : ℕ) : ℕ := if t ∈ f.tracker_ids then 1 else 0

/-- `potential_matches_count[g, t]` after the accumulation loop
(source lines 50, 55-59). -/
def potential_matches_count (threshold : ℚ) (d : SequenceData) (g t : ℕ) : ℕ :=
  (d.frames.map (fun f => matchStep threshold f g t)).sum

/-- `gt_id_count[g]` after the accumulation loop (source lines 51, 62). -/
def gt_id_count (d : SequenceData) (g : ℕ) : ℕ :=
  (d.frames.map (fun f => gtStep f g)).sum

/-- `tracker_id_count[t]` after the accumulation loop (source lines 52, 63). -/
def tracker_id_count (d : SequenceData) (t : ℕ) : ℕ :=
  (d.frames.map (fun f => trackerStep f t)).sum

/-- The final value of cell `(i, j)` of `fn_mat` in `Identity.eval_sequence`
(source lines 69, 71, 73-74, 78): rows `< G` hold `gt_id_count - matches`
on real columns, `gt_id_count` on the own sink column `T + i`, `1e10` on
every other sink column; sink rows are `0`. -/
def fn_mat (threshold : ℚ) (d : SequenceData) (i j : ℕ) : ℚ :=
  if i < d.num_gt_ids then
    if j < d.num_tracker_ids then
      (gt_id_count d i : ℚ) - potential_matches_count threshold d i j
    else if j = d.num_tracker_ids + i then (gt_id_count d i : ℚ)
    else 10 ^ 10
  else 0

/-- The final value of cell `(i, j)` of `fp_mat` in `Identity.eval_sequence`
(source lines 68, 70, 76-77, 79). -/
def fp_mat (threshold : ℚ) (d : SequenceData) (i j : ℕ) : ℚ :=
  if j < d.num_tracker_ids then
    if i < d.num_gt_ids then
      (tracker_id_count d j : ℚ) - potential_matches_count threshold d i j
    else if i = d.num_gt_ids + j then (tracker_id_count d j : ℚ)
    else 10 ^ 10
  else 0

/-- The matrix `fn_mat + fp_mat` handed to `linear_sum_assignment`
(source line 82). -/
def costID (threshold : ℚ) (d : SequenceData) (i j : ℕ) : ℚ :=
  fn_mat threshold d i j + fp_mat threshold d i j

/-- The final value of cell `(i, j)` of `cost_matrix` in
`TrackIdentity.eval_sequence` (source lines 185-199): the real block is
normalised elementwise to `raw / (raw + matches)`, the self-sink diagonals
are `1 - 1e-6`, and every other cell is `1`. -/
def costTrack (threshold : ℚ) (d : SequenceData) (i j : ℕ) : ℚ :=
  if i < d.num_gt_ids then
    if j < d.num_tracker_ids then
      ((gt_id_count d i : ℚ) + tracker_id_count d j
          - 2 * potential_matches_count threshold d i j)
        / ((gt_id_count d i : ℚ) + tracker_id_count d j
          - 2 * potential_matches_count threshold d i j
          + potential_matches_count threshold d i j)
    else if j = d.num_tracker_ids + i then 1 - 1 / 1000000
    else 1
  else
    if j < d.num_tracker_ids then
      if i = d.num_gt_ids + j then 1 - 1 / 1000000 else 1
    else 1

/-- Total cost of an assignment `σ` on an `n × n` matrix `c`. -/
def permCost (n : ℕ) (c : ℕ → ℕ → ℚ) (σ : Fin n → Fin n) : ℚ :=
  ∑ i : Fin n, c i (σ i)

/-- The contract of `scipy.optimize.linear_sum_assignment` on a square
matrix: a bijection of rows to columns minimising the summed cost. -/
def IsOptimalAssignment (n : ℕ) (c : ℕ → ℕ → ℚ) (σ : Fin n → Fin n) : Prop :=
  Function.Bijective σ ∧
    ∀ τ : Fin n → Fin n, Function.Bijective τ → permCost n c σ ≤ permCost n c τ

/-- The result dictionary: the three integer fields and the three float
fields of `Identity` (source lines 23-24); nothing else is ever written. -/
structure MetricResult where
  IDTP : ℚ
  IDFN : ℚ
  IDFP : ℚ
  IDF1 : ℚ
  IDR : ℚ
  IDP : ℚ
deriving DecidableEq, Repr

/-- The initialisation loop `res[field] = 0` (source lines 37-39). -/
def initRes : MetricResult := ⟨0, 0, 0, 0, 0, 0⟩

/-- `Identity._compute_final_fields` (source lines 129-146). -/
def compute_final_fields (res : MetricResult) : MetricResult :=
  { res with
    IDR := if res.IDFN ≠ 0 then res.IDTP / max 1 (res.IDTP + res.IDFN) else 1
    IDP := if res.IDFP ≠ 0 then res.IDTP / max 1 (res.IDTP + res.IDFP) else 1
    IDF1 := if res.IDFN ≠ 0 ∨ res.IDFP ≠ 0 then
        res.IDTP / max 1 (res.IDTP + (1 / 2) * res.IDFP + (1 / 2) * res.IDFN)
      else 1 }

/-- `Identity.eval_sequence` (source lines 34-91), with the external
assignment solver's output passed in as `σ`. -/
def Identity.eval_sequence (threshold : ℚ) (d : SequenceData)
    (σ : Fin (d.num_gt_ids + d.num_tracker_ids) →
         Fin (d.num_gt_ids + d.num_tracker_ids)) : MetricResult :=
  if d.num_tracker_dets = 0 then
    compute_final_fields { initRes with IDFN := (d.num_gt_dets : ℚ) }
  else if d.num_gt_dets = 0 then
    compute_final_fields { initRes with IDFP := (d.num_tracker_dets : ℚ) }
  else
    let idfn : ℚ := ∑ i : Fin (d.num_gt_ids + d.num_tracker_ids),
      fn_mat threshold d i (σ i)
    let idfp : ℚ := ∑ i : Fin (d.num_gt_ids + d.num_tracker_ids),
      fp_mat threshold d i (σ i)
    let idtp : ℚ :=
      (∑ g ∈ Finset.range d.num_gt_ids, (gt_id_count d g : ℚ)) - idfn
    compute_final_fields { initRes with IDTP := idtp, IDFN := idfn, IDFP := idfp }

/-- The summand of `re_assigned` for one matched real-to-real pair
(source lines 205-208): `1` when `potential_matches_count / tracker_id_count
<= track_iou_threshold`.  The nonzero-denominator guard embeds numpy's
behaviour on a zero count, where the quotient is `nan` (or `inf`) and the
`<=` comparison is `False`. -/
def rejectStep (threshold track_iou : ℚ) (d : SequenceData) (g t : ℕ) : ℕ :=
  if tracker_id_count d t ≠ 0 ∧
      (potential_matches_count threshold d g t : ℚ) / tracker_id_count d t ≤ track_iou
  then 1 else 0

/-- `re_assigned` (source lines 205-208): the number of matched
real-to-real pairs whose overlap ratio fails the acceptance test. -/
def re_assigned (threshold track_iou : ℚ) (d : SequenceData)
    (σ : Fin (d.num_gt_ids + d.num_tracker_ids) →
         Fin (d.num_gt_ids + d.num_tracker_ids)) : ℕ :=
  ∑ i : Fin (d.num_gt_ids + d.num_tracker_ids),
    if (i : ℕ) < d.num_gt_ids ∧ (σ i : ℕ) < d.num_tracker_ids then
      rejectStep threshold track_iou d i (σ i)
    else 0

/-- The count of real gt rows matched to a sink column (source line 210). -/
def sinkFN (d : SequenceData)
    (σ : Fin (d.num_gt_ids + d.num_tracker_ids) →
         Fin (d.num_gt_ids + d.num_tracker_ids)) : ℕ :=
  (Finset.univ.filter
    (fun i : Fin (d.num_gt_ids + d.num_tracker_ids) =>
      (i : ℕ) < d.num_gt_ids ∧ d.num_tracker_ids ≤ (σ i : ℕ))).card

/-- The count of sink rows matched to a real tracker column
(source line 211). -/
def sinkFP (d : SequenceData)
    (σ : Fin (d.num_gt_ids + d.num_tracker_ids) →
         Fin (d.num_gt_ids + d.num_tracker_ids)) : ℕ :=
  (Finset.univ.filter
    (fun i : Fin (d.num_gt_ids + d.num_tracker_ids) =>
      d.num_gt_ids ≤ (i : ℕ) ∧ (σ i : ℕ) < d.num_tracker_ids)).card

/-- `TrackIdentity.eval_sequence` (source lines 150-216), with the solver's
output passed in as `σ`.  Note that the two empty-sequence shortcut branches
return `res` directly, without `_compute_final_fields`. -/
def TrackIdentity.eval_sequence (threshold track_iou : ℚ) (d : SequenceData)
    (σ : Fin (d.num_gt_ids + d.num_tracker_ids) →
         Fin (d.num_gt_ids + d.num_tracker_ids)) : MetricResult :=
  if d.num_tracker_dets = 0 then
    { initRes with IDFN := (d.num_gt_ids : ℚ) }
  else if d.num_gt_dets = 0 then
    { initRes with IDFP := (d.num_tracker_ids : ℚ) }
  else
    let idfn : ℚ := (sinkFN d σ : ℚ) + re_assigned threshold track_iou d σ
    let idfp : ℚ := (sinkFP d σ : ℚ) + re_assigned threshold track_iou d σ
    compute_final_fields
      { initRes with IDTP := (d.num_gt_ids : ℚ) - idfn, IDFN := idfn, IDFP := idfp }

/-- `_BaseMetric._combine_sum` restricted to one field: the values of the
per-sequence results are summed. -/
def combine_sum (allRes : List MetricResult) (f : MetricResult → ℚ) : ℚ :=
  (allRes.map f).sum

/-- `np.mean` on a list of exact values: sum divided by length. -/
def listMean (l : List ℚ) : ℚ := l.sum / l.length

/-- `TrackIdentity.combine_sequences` (source lines 218-231): integer fields
are summed; `"micro"` re-derives the float fields from the sums, `"macro"`
averages the per-sequence float fields, and any other mode raises
`ValueError`. -/
def TrackIdentity.combine_sequences (allRes : List MetricResult)
    (average : String) : Except String MetricResult :=
  let summed : MetricResult := { initRes with
    IDTP := combine_sum allRes (fun r => r.IDTP)
    IDFN := combine_sum allRes (fun r => r.IDFN)
    IDFP := combine_sum allRes (fun r => r.IDFP) }
  if average = "micro" then Except.ok (compute_final_fields summed)
  else if average = "macro" then
    Except.ok { summed with
      IDF1 := listMean (allRes.map (fun r => r.IDF1))
      IDR := listMean (allRes.map (fun r => r.IDR))
      IDP := listMean (allRes.map (fun r => r.IDP)) }
  else Except.error ("Unexpected average value: " ++ average)

/-- `Identity.combine_sequences` (source lines 121-127): sum the integer
fields, re-derive the float fields. -/
def Identity.combine_sequences (allRes : List MetricResult) : MetricResult :=
  compute_final_fields { initRes with
    IDTP := combine_sum allRes (fun r => r.IDTP)
    IDFN := combine_sum allRes (fun r => r.IDFN)
    IDFP := combine_sum allRes (fun r => r.IDFP) }

/-- Well-formedness of the input, the interface invariant of §3 of the
design: frame identity lists are duplicate-free and in range, and the two
global detection counts equal the summed frame list lengths. -/
def WellFormed (d : SequenceData) : Prop :=
  (∀ f ∈ d.frames, f.gt_ids.Nodup ∧ f.tracker_ids.Nodup ∧
    (∀ g ∈ f.gt_ids, g < d.num_gt_ids) ∧ (∀ t ∈ f.tracker_ids, t < d.num_tracker_ids)) ∧
  d.num_gt_dets = (d.frames.map (fun f => f.gt_ids.length)).sum ∧
  d.num_tracker_dets = (d.frames.map (fun f => f.tracker_ids.length)).sum

/-- Every declared identity is present in at least one frame. -/
def AllIdsAppear (d : SequenceData) : Prop :=
  (∀ g < d.num_gt_ids, ∃ f ∈ d.frames, g ∈ f.gt_ids) ∧
  (∀ t < d.num_tracker_ids, ∃ f ∈ d.frames, t ∈ f.tracker_ids)

/-- Total gt detections as seen by the accumulator, `gt_id_count.sum()`
(source line 87). -/
def sumGtCount (d : SequenceData) : ℕ :=
  ∑ g ∈ Finset.range d.num_gt_ids, gt_id_count d g

/-- Total tracker detections as seen by the accumulator. -/
def sumTrackerCount (d : SequenceData) : ℕ :=
  ∑ t ∈ Finset.range d.num_tracker_ids, tracker_id_count d t

/-- Row marginal of the detection-level cost matrix: `gt_id_count` on real
rows, `0` on sink rows. -/
def rRow (d : SequenceData) (i : ℕ) : ℚ :=
  if i < d.num_gt_ids then (gt_id_count d i : ℚ) else 0

/-- Column marginal of the detection-level cost matrix: `tracker_id_count`
on real columns, `0` on sink columns. -/
def sCol (d : SequenceData) (j : ℕ) : ℚ :=
  if j < d.num_tracker_ids then (tracker_id_count d j : ℚ) else 0

/-- Match part of a cost cell: `potential_matches_count` on the real block,
`0` elsewhere. -/
def muCell (threshold : ℚ) (d : SequenceData) (i j : ℕ) : ℚ :=
  if i < d.num_gt_ids ∧ j < d.num_tracker_ids then
    (potential_matches_count threshold d i j : ℚ)
  else 0

/-- Penalty part of a cost cell: the `1e10` forbidden-cell excess over the
marginal parts, nonzero exactly on the cross-sink cells. -/
def penCell (d : SequenceData) (i j : ℕ) : ℚ :=
  if i < d.num_gt_ids ∧ d.num_tracker_ids ≤ j ∧ j ≠ d.num_tracker_ids + i then
    10 ^ 10 - (gt_id_count d i : ℚ)
  else if d.num_gt_ids ≤ i ∧ j < d.num_tracker_ids ∧ i ≠ d.num_gt_ids + j then
    10 ^ 10 - (tracker_id_count d j : ℚ)
  else 0

/-- Total matched-frame count claimed by an assignment: the sum of
`potential_matches_count` over its real-to-real pairs. -/
def matchVal (threshold : ℚ) (d : SequenceData)
    (σ : Fin (d.num_gt_ids + d.num_tracker_ids) →
         Fin (d.num_gt_ids + d.num_tracker_ids)) : ℚ :=
  ∑ i : Fin (d.num_gt_ids + d.num_tracker_ids), muCell threshold d i (σ i)

/-- Total penalty incurred by an assignment. -/
def penVal (d : SequenceData)
    (σ : Fin (d.num_gt_ids + d.num_tracker_ids) →
         Fin (d.num_gt_ids + d.num_tracker_ids)) : ℚ :=
  ∑ i : Fin (d.num_gt_ids + d.num_tracker_ids), penCell d i (σ i)

/-- The all-sink assignment: every gt row to its own sink column, every
tracker sink row to its own real column. -/
def sinkPerm (G T : ℕ) (i : Fin (G + T)) : Fin (G + T) :=
  if h : (i : ℕ) < G then ⟨T + i, by omega⟩
  else ⟨(i : ℕ) - G, by have := i.isLt; omega⟩

/-- The §6 output contract for one result: non-negative integer fields and
float fields in `[0, 1]`. -/
def ValidResult (r : MetricResult) : Prop :=
  0 ≤ r.IDTP ∧ 0 ≤ r.IDFN ∧ 0 ≤ r.IDFP
    ∧ 0 ≤ r.IDF1 ∧ r.IDF1 ≤ 1 ∧ 0 ≤ r.IDR ∧ r.IDR ≤ 1 ∧ 0 ≤ r.IDP ∧ r.IDP ≤ 1

/-- Example frame: gt identity 0 and tracker identity 0 co-occur with
similarity 1. -/
def exFrame : Frame := ⟨[0], [0], fun _ _ => 1⟩

/-- Example frame: gt identity 0 and tracker identity 0 co-occur with
similarity 0. -/
def exFrameMiss : Frame := ⟨[0], [0], fun _ _ => 0⟩

/-- One-frame example sequence with one gt and one tracker identity. -/
def exSeq : SequenceData := ⟨1, 1, 1, 1, [exFrame]⟩

/-- Five-frame example sequence: the tracker co-occurs above threshold with
the gt in exactly one of five frames, so the overlap ratio is exactly 1/5. -/
def exSeqB : SequenceData :=
  ⟨1, 1, 5, 5, [exFrame, exFrameMiss, exFrameMiss, exFrameMiss, exFrameMiss]⟩

/-- Example sequence with two gt detections and an empty tracker. -/
def exSeqEmptyTracker : SequenceData :=
  ⟨1, 1, 2, 0, [⟨[0], [], fun _ _ => 0⟩, ⟨[0], [], fun _ _ => 0⟩]⟩

/-- Example per-sequence results for aggregation tests. -/
def exRes1 : MetricResult := ⟨3, 1, 2, 0, 0, 0⟩

/-- A second example per-sequence result. -/
def exRes2 : MetricResult := ⟨1, 1, 0, 1, 1, 1⟩

lemma matchStep_le_gtStep (threshold : ℚ) (f : Frame) (g t : ℕ) :
    matchStep threshold f g t ≤ gtStep f g := by
  unfold matchStep gtStep
  split_ifs with h1 h2
  · exact le_refl 1
  · obtain ⟨i, hi, j, hj, hg, ht, hsim⟩ := h1
    rw [Finset.mem_range] at hi
    rw [List.getD_eq_getElem _ _ hi] at hg
    exact absurd (hg ▸ List.getElem_mem hi) h2
  · exact Nat.zero_le 1
  · exact le_refl 0

lemma matchStep_le_trackerStep (threshold : ℚ) (f : Frame) (g t : ℕ) :
    matchStep threshold f g t ≤ trackerStep f t := by
  unfold matchStep trackerStep
  split_ifs with h1 h2
  · exact le_refl 1
  · obtain ⟨i, hi, j, hj, hg, ht, hsim⟩ := h1
    rw [Finset.mem_range] at hj
    rw [List.getD_eq_getElem _ _ hj] at ht
    exact absurd (ht ▸ List.getElem_mem hj) h2
  · exact Nat.zero_le 1
  · exact le_refl 0

lemma matchStep_anti {th₁ th₂ : ℚ} (h : th₁ ≤ th₂) (f : Frame) (g t : ℕ) :
    matchStep th₂ f g t ≤ matchStep th₁ f g t := by
  unfold matchStep
  split_ifs with h1 h2
  · exact le_refl 1
  · obtain ⟨i, hi, j, hj, hg, ht, hsim⟩ := h1
    exact absurd ⟨i, hi, j, hj, hg, ht, le_trans h hsim⟩ h2
  · exact Nat.zero_le 1
  · exact le_refl 0

lemma potential_matches_count_le_gt_id_count (threshold : ℚ) (d : SequenceData)
    (g t : ℕ) : potential_matches_count threshold d g t ≤ gt_id_count d g :=
  List.sum_le_sum fun f _ => matchStep_le_gtStep threshold f g t

lemma potential_matches_count_le_tracker_id_count (threshold : ℚ) (d : SequenceData)
    (g t : ℕ) : potential_matches_count threshold d g t ≤ tracker_id_count d t :=
  List.sum_le_sum fun f _ => matchStep_le_trackerStep threshold f g t

lemma potential_matches_count_anti {th₁ th₂ : ℚ} (h : th₁ ≤ th₂) (d : SequenceData)
    (g t : ℕ) :
    potential_matches_count th₂ d g t ≤ potential_matches_count th₁ d g t :=
  List.sum_le_sum fun f _ => matchStep_anti h f g t

lemma sum_range_indicator_mem {l : List ℕ} {G : ℕ} (hnd : l.Nodup)
    (hlt : ∀ g ∈ l, g < G) :
    (∑ g ∈ Finset.range G, if g ∈ l then 1 else 0) = l.length := by
  rw [← Finset.card_filter]
  have : (Finset.range G).filter (fun g => g ∈ l) = l.toFinset := by
    ext a
    simp only [Finset.mem_filter, Finset.mem_range, List.mem_toFinset]
    exact ⟨fun h => h.2, fun h => ⟨hlt a h, h⟩⟩
  rw [this, List.toFinset_card_of_nodup hnd]

lemma sum_range_frames_sum {frames : List Frame} {G : ℕ} (len : Frame → ℕ)
    (step : Frame → ℕ → ℕ)
    (hstep : ∀ f ∈ frames, ∑ g ∈ Finset.range G, step f g = len f) :
    ∑ g ∈ Finset.range G, (frames.map (fun f => step f g)).sum
      = (frames.map len).sum := by
  induction frames with
  | nil => simp
  | cons f l ih =>
    simp only [List.map_cons, List.sum_cons]
    rw [Finset.sum_add_distrib, hstep f (List.mem_cons_self f l),
      ih fun f' hf' => hstep f' (List.mem_cons_of_mem f hf')]

lemma sum_gt_id_count {d : SequenceData} (hwf : WellFormed d) :
    ∑ g ∈ Finset.range d.num_gt_ids, gt_id_count d g = d.num_gt_dets := by
  unfold gt_id_count gtStep
  rw [sum_range_frames_sum (fun f => f.gt_ids.length)
    (fun f g => if g ∈ f.gt_ids then 1 else 0)
    (fun f hf => sum_range_indicator_mem (hwf.1 f hf).1 (hwf.1 f hf).2.2.1)]
  exact hwf.2.1.symm

lemma sum_tracker_id_count {d : SequenceData} (hwf : WellFormed d) :
    ∑ t ∈ Finset.range d.num_tracker_ids, tracker_id_count d t
      = d.num_tracker_dets := by
  unfold tracker_id_count trackerStep
  rw [sum_range_frames_sum (fun f => f.tracker_ids.length)
    (fun f t => if t ∈ f.tracker_ids then 1 else 0)
    (fun f hf => sum_range_indicator_mem (hwf.1 f hf).2.1 (hwf.1 f hf).2.2.2)]
  exact hwf.2.2.symm

lemma one_le_gt_id_count {d : SequenceData} {g : ℕ}
    (h : ∃ f ∈ d.frames, g ∈ f.gt_ids) : 1 ≤ gt_id_count d g := by
  obtain ⟨f, hf, hg⟩ := h
  have hstep : gtStep f g = 1 := by simp [gtStep, hg]
  calc (1 : ℕ) = gtStep f g := hstep.symm
    _ ≤ gt_id_count d g :=
        List.le_sum_of_mem (List.mem_map_of_mem (fun f' => gtStep f' g) hf)

lemma one_le_tracker_id_count {d : SequenceData} {t : ℕ}
    (h : ∃ f ∈ d.frames, t ∈ f.tracker_ids) : 1 ≤ tracker_id_count d t := by
  obtain ⟨f, hf, ht⟩ := h
  have hstep : trackerStep f t = 1 := by simp [trackerStep, ht]
  calc (1 : ℕ) = trackerStep f t := hstep.symm
    _ ≤ tracker_id_count d t :=
        List.le_sum_of_mem (List.mem_map_of_mem (fun f' => trackerStep f' t) hf)

lemma gt_id_count_le_sum {d : SequenceData} {g : ℕ} (hg : g < d.num_gt_ids) :
    gt_id_count d g ≤ ∑ g' ∈ Finset.range d.num_gt_ids, gt_id_count d g' :=
  Finset.single_le_sum (fun _ _ => Nat.zero_le _) (Finset.mem_range.mpr hg)

lemma tracker_id_count_le_sum {d : SequenceData} {t : ℕ}
    (ht : t < d.num_tracker_ids) :
    tracker_id_count d t ≤ ∑ t' ∈ Finset.range d.num_tracker_ids, tracker_id_count d t' :=
  Finset.single_le_sum (fun _ _ => Nat.zero_le _) (Finset.mem_range.mpr ht)

lemma costID_decomp (threshold : ℚ) (d : SequenceData) (i j : ℕ) :
    costID threshold d i j
      = rRow d i + sCol d j - 2 * muCell threshold d i j + penCell d i j := by
  unfold costID fn_mat fp_mat rRow sCol muCell penCell
  split_ifs <;> first | ring1 | (exfalso; omega)

lemma sum_fin_ite_lt {n G : ℕ} (hG : G ≤ n) (f : ℕ → ℚ) :
    ∑ i : Fin n, (if (i : ℕ) < G then f i else 0) = ∑ g ∈ Finset.range G, f g := by
  rw [Fin.sum_univ_eq_sum_range (fun i => if i < G then f i else 0) n,
    ← Finset.sum_filter]
  congr 1
  ext a
  simp only [Finset.mem_filter, Finset.mem_range]
  omega

lemma sum_rRow (d : SequenceData) :
    ∑ i : Fin (d.num_gt_ids + d.num_tracker_ids), rRow d i = (sumGtCount d : ℚ) := by
  unfold rRow sumGtCount
  rw [Nat.cast_sum]
  exact sum_fin_ite_lt (Nat.le_add_right _ _) fun g => (gt_id_count d g : ℚ)

lemma sum_sCol (d : SequenceData) :
    ∑ j : Fin (d.num_gt_ids + d.num_tracker_ids), sCol d j
      = (sumTrackerCount d : ℚ) := by
  unfold sCol sumTrackerCount
  rw [Nat.cast_sum]
  exact sum_fin_ite_lt (Nat.le_add_left _ _) fun t => (tracker_id_count d t : ℚ)

lemma permCost_costID (threshold : ℚ) (d : SequenceData)
    {σ : Fin (d.num_gt_ids + d.num_tracker_ids) →
         Fin (d.num_gt_ids + d.num_tracker_ids)}
    (hσ : Function.Bijective σ) :
    permCost (d.num_gt_ids + d.num_tracker_ids) (costID threshold d) σ
      = (sumGtCount d : ℚ) + sumTrackerCount d
        - 2 * matchVal threshold d σ + penVal d σ := by
  unfold permCost matchVal penVal
  have h : ∀ i : Fin (d.num_gt_ids + d.num_tracker_ids),
      costID threshold d i (σ i)
        = rRow d i + sCol d (σ i) - 2 * muCell threshold d i (σ i)
          + penCell d i (σ i) := fun i => costID_decomp threshold d i (σ i)
  rw [Finset.sum_congr rfl fun i _ => h i]
  rw [Finset.sum_add_distrib, Finset.sum_sub_distrib, Finset.sum_add_distrib,
    ← Finset.mul_sum, sum_rRow]
  have hs : (∑ i : Fin (d.num_gt_ids + d.num_tracker_ids), sCol d (σ i))
      = ∑ j : Fin (d.num_gt_ids + d.num_tracker_ids), sCol d j :=
    Fintype.sum_bijective σ hσ _ _ fun i => rfl
  rw [hs, sum_sCol]

lemma penCell_nonneg {d : SequenceData}
    (hsize : sumGtCount d + sumTrackerCount d ≤ 10 ^ 10) (i j : ℕ) :
    0 ≤ penCell d i j := by
  unfold penCell
  split_ifs with h1 h2
  · have h3 : gt_id_count d i ≤ 10 ^ 10 :=
      le_trans (gt_id_count_le_sum h1.1) (le_trans (Nat.le_add_right _ _) hsize)
    have h4 : (gt_id_count d i : ℚ) ≤ ((10 ^ 10 : ℕ) : ℚ) := Nat.cast_le.mpr h3
    push_cast at h4
    linarith
  · have h3 : tracker_id_count d j ≤ 10 ^ 10 :=
      le_trans (tracker_id_count_le_sum h2.2.1)
        (le_trans (Nat.le_add_left _ _) hsize)
    have h4 : (tracker_id_count d j : ℚ) ≤ ((10 ^ 10 : ℕ) : ℚ) := Nat.cast_le.mpr h3
    push_cast at h4
    linarith
  · exact le_refl 0

lemma penVal_nonneg {d : SequenceData}
    (hsize : sumGtCount d + sumTrackerCount d ≤ 10 ^ 10)
    (σ : Fin (d.num_gt_ids + d.num_tracker_ids) →
         Fin (d.num_gt_ids + d.num_tracker_ids)) :
    0 ≤ penVal d σ :=
  Finset.sum_nonneg fun i _ => penCell_nonneg hsize i (σ i)

lemma muCell_le_rRow (threshold : ℚ) (d : SequenceData) (i j : ℕ) :
    muCell threshold d i j ≤ rRow d i := by
  unfold muCell rRow
  split_ifs <;>
    first
      | exact Nat.cast_le.mpr (potential_matches_count_le_gt_id_count threshold d i j)
      | exact Nat.cast_nonneg _
      | exact le_refl 0
      | (exfalso; omega)

lemma muCell_le_sCol (threshold : ℚ) (d : SequenceData) (i j : ℕ) :
    muCell threshold d i j ≤ sCol d j := by
  unfold muCell sCol
  split_ifs <;>
    first
      | exact Nat.cast_le.mpr (potential_matches_count_le_tracker_id_count threshold d i j)
      | exact Nat.cast_nonneg _
      | exact le_refl 0
      | (exfalso; omega)

lemma matchVal_nonneg (threshold : ℚ) (d : SequenceData)
    (σ : Fin (d.num_gt_ids + d.num_tracker_ids) →
         Fin (d.num_gt_ids + d.num_tracker_ids)) :
    0 ≤ matchVal threshold d σ := by
  refine Finset.sum_nonneg fun i _ => ?_
  unfold muCell
  split_ifs
  · exact Nat.cast_nonneg _
  · exact le_refl 0

lemma matchVal_le_sumGtCount (threshold : ℚ) (d : SequenceData)
    (σ : Fin (d.num_gt_ids + d.num_tracker_ids) →
         Fin (d.num_gt_ids + d.num_tracker_ids)) :
    matchVal threshold d σ ≤ (sumGtCount d : ℚ) := by
  calc matchVal threshold d σ
      ≤ ∑ i : Fin (d.num_gt_ids + d.num_tracker_ids), rRow d i :=
        Finset.sum_le_sum fun i _ => muCell_le_rRow threshold d i (σ i)
    _ = (sumGtCount d : ℚ) := sum_rRow d

lemma matchVal_le_sumTrackerCount (threshold : ℚ) (d : SequenceData)
    {σ : Fin (d.num_gt_ids + d.num_tracker_ids) →
         Fin (d.num_gt_ids + d.num_tracker_ids)}
    (hσ : Function.Bijective σ) :
    matchVal threshold d σ ≤ (sumTrackerCount d : ℚ) := by
  calc matchVal threshold d σ
      ≤ ∑ i : Fin (d.num_gt_ids + d.num_tracker_ids), sCol d (σ i) :=
        Finset.sum_le_sum fun i _ => muCell_le_sCol threshold d i (σ i)
    _ = ∑ j : Fin (d.num_gt_ids + d.num_tracker_ids), sCol d j :=
        Fintype.sum_bijective σ hσ _ _ fun i => rfl
    _ = (sumTrackerCount d : ℚ) := sum_sCol d

lemma sinkPerm_val_lt {G T : ℕ} (i : Fin (G + T)) (h : (i : ℕ) < G) :
    ((sinkPerm G T i : Fin (G + T)) : ℕ) = T + i := by
  unfold sinkPerm
  rw [dif_pos h]

lemma sinkPerm_val_ge {G T : ℕ} (i : Fin (G + T)) (h : ¬ (i : ℕ) < G) :
    ((sinkPerm G T i : Fin (G + T)) : ℕ) = (i : ℕ) - G := by
  unfold sinkPerm
  rw [dif_neg h]

lemma sinkPerm_bijective (G T : ℕ) : Function.Bijective (sinkPerm G T) := by
  refine Finite.injective_iff_bijective.mp fun a b hab => ?_
  have ha := a.isLt
  have hb := b.isLt
  unfold sinkPerm at hab
  apply Fin.ext
  split_ifs at hab <;> rw [Fin.mk.injEq] at hab <;> omega

lemma matchVal_sinkPerm (threshold : ℚ) (d : SequenceData) :
    matchVal threshold d (sinkPerm d.num_gt_ids d.num_tracker_ids) = 0 := by
  refine Finset.sum_eq_zero fun i _ => ?_
  by_cases h : (i : ℕ) < d.num_gt_ids
  · rw [sinkPerm_val_lt i h]
    unfold muCell
    rw [if_neg fun hc => by omega]
  · rw [sinkPerm_val_ge i h]
    unfold muCell
    rw [if_neg fun hc => h hc.1]

lemma penVal_sinkPerm (d : SequenceData) :
    penVal d (sinkPerm d.num_gt_ids d.num_tracker_ids) = 0 := by
  refine Finset.sum_eq_zero fun i _ => ?_
  by_cases h : (i : ℕ) < d.num_gt_ids
  · rw [sinkPerm_val_lt i h]
    unfold penCell
    rw [if_neg fun hc => hc.2.2 rfl, if_neg fun hc => by omega]
  · rw [sinkPerm_val_ge i h]
    unfold penCell
    rw [if_neg fun hc => h hc.1, if_neg fun hc => hc.2.2 (by omega)]

lemma permCost_sinkPerm (threshold : ℚ) (d : SequenceData) :
    permCost (d.num_gt_ids + d.num_tracker_ids) (costID threshold d)
        (sinkPerm d.num_gt_ids d.num_tracker_ids)
      = (sumGtCount d : ℚ) + sumTrackerCount d := by
  rw [permCost_costID threshold d (sinkPerm_bijective _ _), matchVal_sinkPerm,
    penVal_sinkPerm]
  ring

lemma penVal_eq_zero_of_optimal {threshold : ℚ} {d : SequenceData}
    (hsize : 3 * (sumGtCount d + sumTrackerCount d) < 10 ^ 10)
    {σ : Fin (d.num_gt_ids + d.num_tracker_ids) →
         Fin (d.num_gt_ids + d.num_tracker_ids)}
    (hσ : IsOptimalAssignment (d.num_gt_ids + d.num_tracker_ids)
      (costID threshold d) σ) :
    penVal d σ = 0 := by
  have hsz1 : sumGtCount d + sumTrackerCount d ≤ 10 ^ 10 := by omega
  have hsizeQ : (3 : ℚ) * ((sumGtCount d : ℚ) + sumTrackerCount d) < 10 ^ 10 := by
    exact_mod_cast hsize
  have h1 : permCost (d.num_gt_ids + d.num_tracker_ids) (costID threshold d) σ
      ≤ (sumGtCount d : ℚ) + sumTrackerCount d := by
    have h := hσ.2 (sinkPerm _ _) (sinkPerm_bijective _ _)
    rwa [permCost_sinkPerm] at h
  rw [permCost_costID threshold d hσ.1] at h1
  have hM : matchVal threshold d σ ≤ (sumGtCount d : ℚ) :=
    matchVal_le_sumGtCount threshold d σ
  have hPle : penVal d σ ≤ 2 * (sumGtCount d : ℚ) := by linarith
  by_contra hP
  have hex : ∃ i ∈ (Finset.univ : Finset (Fin (d.num_gt_ids + d.num_tracker_ids))),
      penCell d i (σ i) ≠ 0 := by
    by_contra hall
    push_neg at hall
    exact hP (Finset.sum_eq_zero hall)
  obtain ⟨i, _, hi⟩ := hex
  have hcell : (10 : ℚ) ^ 10 - ((sumGtCount d : ℚ) + sumTrackerCount d)
      ≤ penCell d i (σ i) := by
    unfold penCell at hi ⊢
    split_ifs at hi ⊢ with h2 h3
    · have hb : (gt_id_count d (i : ℕ) : ℚ) ≤ (sumGtCount d : ℚ) :=
        Nat.cast_le.mpr (gt_id_count_le_sum h2.1)
      have hnn : (0 : ℚ) ≤ (sumTrackerCount d : ℚ) := Nat.cast_nonneg _
      linarith
    · have hb : (tracker_id_count d ((σ i : Fin _) : ℕ) : ℚ) ≤ (sumTrackerCount d : ℚ) :=
        Nat.cast_le.mpr (tracker_id_count_le_sum h3.2.1)
      have hnn : (0 : ℚ) ≤ (sumGtCount d : ℚ) := Nat.cast_nonneg _
      linarith
    · exact absurd rfl hi
  have hsingle : penCell d i (σ i) ≤ penVal d σ := by
    unfold penVal
    exact Finset.single_le_sum
      (fun (j : Fin (d.num_gt_ids + d.num_tracker_ids)) _ =>
        penCell_nonneg hsz1 j (σ j))
      (Finset.mem_univ i)
  have hgle : (sumGtCount d : ℚ) ≤ (sumGtCount d : ℚ) + sumTrackerCount d := by
    have : (0 : ℚ) ≤ (sumTrackerCount d : ℚ) := Nat.cast_nonneg _
    linarith
  linarith

lemma penCell_eq_zero_of_optimal {threshold : ℚ} {d : SequenceData}
    (hsize : 3 * (sumGtCount d + sumTrackerCount d) < 10 ^ 10)
    {σ : Fin (d.num_gt_ids + d.num_tracker_ids) →
         Fin (d.num_gt_ids + d.num_tracker_ids)}
    (hσ : IsOptimalAssignment (d.num_gt_ids + d.num_tracker_ids)
      (costID threshold d) σ)
    (i : Fin (d.num_gt_ids + d.num_tracker_ids)) :
    penCell d i (σ i) = 0 := by
  have hsz1 : sumGtCount d + sumTrackerCount d ≤ 10 ^ 10 := by omega
  have hzero := penVal_eq_zero_of_optimal hsize hσ
  unfold penVal at hzero
  exact (Finset.sum_eq_zero_iff_of_nonneg
    (fun (j : Fin (d.num_gt_ids + d.num_tracker_ids)) _ =>
      penCell_nonneg hsz1 j (σ j))).mp hzero i (Finset.mem_univ i)

lemma optimal_gt_structure {threshold : ℚ} {d : SequenceData}
    (hsize : 3 * (sumGtCount d + sumTrackerCount d) < 10 ^ 10)
    {σ : Fin (d.num_gt_ids + d.num_tracker_ids) →
         Fin (d.num_gt_ids + d.num_tracker_ids)}
    (hσ : IsOptimalAssignment (d.num_gt_ids + d.num_tracker_ids)
      (costID threshold d) σ)
    (i : Fin (d.num_gt_ids + d.num_tracker_ids)) (hi : (i : ℕ) < d.num_gt_ids) :
    ((σ i : Fin _) : ℕ) < d.num_tracker_ids
      ∨ ((σ i : Fin _) : ℕ) = d.num_tracker_ids + (i : ℕ) := by
  have hcell := penCell_eq_zero_of_optimal hsize hσ i
  by_contra hcon
  push_neg at hcon
  unfold penCell at hcell
  rw [if_pos ⟨hi, hcon.1, hcon.2⟩] at hcell
  have hgc : gt_id_count d (i : ℕ) = 10 ^ 10 := by
    have : ((10 ^ 10 : ℕ) : ℚ) = (gt_id_count d (i : ℕ) : ℚ) := by
      push_cast
      linarith
    exact (Nat.cast_injective this).symm
  have hb : gt_id_count d (i : ℕ) ≤ sumGtCount d := gt_id_count_le_sum hi
  omega

lemma optimal_tracker_structure {threshold : ℚ} {d : SequenceData}
    (hsize : 3 * (sumGtCount d + sumTrackerCount d) < 10 ^ 10)
    {σ : Fin (d.num_gt_ids + d.num_tracker_ids) →
         Fin (d.num_gt_ids + d.num_tracker_ids)}
    (hσ : IsOptimalAssignment (d.num_gt_ids + d.num_tracker_ids)
      (costID threshold d) σ)
    (i : Fin (d.num_gt_ids + d.num_tracker_ids)) (hi : d.num_gt_ids ≤ (i : ℕ)) :
    d.num_tracker_ids ≤ ((σ i : Fin _) : ℕ)
      ∨ (i : ℕ) = d.num_gt_ids + ((σ i : Fin _) : ℕ) := by
  have hcell := penCell_eq_zero_of_optimal hsize hσ i
  by_contra hcon
  push_neg at hcon
  unfold penCell at hcell
  rw [if_neg (fun hc => by omega), if_pos ⟨hi, hcon.1, hcon.2⟩] at hcell
  have htc : tracker_id_count d ((σ i : Fin _) : ℕ) = 10 ^ 10 := by
    have : ((10 ^ 10 : ℕ) : ℚ) = (tracker_id_count d ((σ i : Fin _) : ℕ) : ℚ) := by
      push_cast
      linarith
    exact (Nat.cast_injective this).symm
  have hb : tracker_id_count d ((σ i : Fin _) : ℕ) ≤ sumTrackerCount d :=
    tracker_id_count_le_sum hcon.1
  omega

lemma compute_final_fields_IDTP (res : MetricResult) :
    (compute_final_fields res).IDTP = res.IDTP := rfl

lemma compute_final_fields_IDFN (res : MetricResult) :
    (compute_final_fields res).IDFN = res.IDFN := rfl

lemma compute_final_fields_IDFP (res : MetricResult) :
    (compute_final_fields res).IDFP = res.IDFP := rfl

lemma cff_update_IDTP (a b c : ℚ) :
    (compute_final_fields { initRes with IDTP := a, IDFN := b, IDFP := c }).IDTP
      = a := rfl

lemma cff_update_IDFN (a b c : ℚ) :
    (compute_final_fields { initRes with IDTP := a, IDFN := b, IDFP := c }).IDFN
      = b := rfl

lemma cff_update_IDFP (a b c : ℚ) :
    (compute_final_fields { initRes with IDTP := a, IDFN := b, IDFP := c }).IDFP
      = c := rfl

lemma fn_mat_cell_of_structure (threshold : ℚ) {d : SequenceData}
    {σ : Fin (d.num_gt_ids + d.num_tracker_ids) →
         Fin (d.num_gt_ids + d.num_tracker_ids)}
    (hfree : ∀ i : Fin (d.num_gt_ids + d.num_tracker_ids),
      (i : ℕ) < d.num_gt_ids →
      ((σ i : Fin _) : ℕ) < d.num_tracker_ids
        ∨ ((σ i : Fin _) : ℕ) = d.num_tracker_ids + (i : ℕ))
    (i : Fin (d.num_gt_ids + d.num_tracker_ids)) :
    fn_mat threshold d i (σ i) = rRow d i - muCell threshold d i (σ i) := by
  by_cases hi : (i : ℕ) < d.num_gt_ids
  · rcases hfree i hi with h | h
    · unfold fn_mat rRow muCell
      rw [if_pos hi, if_pos h, if_pos hi, if_pos ⟨hi, h⟩]
    · unfold fn_mat rRow muCell
      rw [if_pos hi,
        if_neg (show ¬ ((σ i : Fin _) : ℕ) < d.num_tracker_ids by omega),
        if_pos h, if_pos hi, if_neg (fun hc => by omega)]
      ring1
  · unfold fn_mat rRow muCell
    rw [if_neg hi, if_neg hi, if_neg (fun hc => hi hc.1)]
    ring1

lemma fp_mat_cell_of_structure (threshold : ℚ) {d : SequenceData}
    {σ : Fin (d.num_gt_ids + d.num_tracker_ids) →
         Fin (d.num_gt_ids + d.num_tracker_ids)}
    (hfree : ∀ i : Fin (d.num_gt_ids + d.num_tracker_ids),
      d.num_gt_ids ≤ (i : ℕ) →
      (d.num_tracker_ids ≤ ((σ i : Fin _) : ℕ)
        ∨ (i : ℕ) = d.num_gt_ids + ((σ i : Fin _) : ℕ)))
    (i : Fin (d.num_gt_ids + d.num_tracker_ids)) :
    fp_mat threshold d i (σ i) = sCol d (σ i) - muCell threshold d i (σ i) := by
  by_cases hj : ((σ i : Fin _) : ℕ) < d.num_tracker_ids
  · by_cases hi : (i : ℕ) < d.num_gt_ids
    · unfold fp_mat sCol muCell
      rw [if_pos hj, if_pos hi, if_pos hj, if_pos ⟨hi, hj⟩]
    · rcases hfree i (le_of_not_lt hi) with h | h
      · exact absurd hj (not_lt.mpr h)
      · unfold fp_mat sCol muCell
        rw [if_pos hj, if_neg hi, if_pos h, if_pos hj,
          if_neg (fun hc => hi hc.1)]
        ring1
  · unfold fp_mat sCol muCell
    rw [if_neg hj, if_neg hj, if_neg (fun hc => hj hc.2)]
    ring1

lemma sum_fn_mat_of_structure (threshold : ℚ) {d : SequenceData}
    {σ : Fin (d.num_gt_ids + d.num_tracker_ids) →
         Fin (d.num_gt_ids + d.num_tracker_ids)}
    (hfree : ∀ i : Fin (d.num_gt_ids + d.num_tracker_ids),
      (i : ℕ) < d.num_gt_ids →
      ((σ i : Fin _) : ℕ) < d.num_tracker_ids
        ∨ ((σ i : Fin _) : ℕ) = d.num_tracker_ids + (i : ℕ)) :
    (∑ i : Fin (d.num_gt_ids + d.num_tracker_ids), fn_mat threshold d i (σ i))
      = (sumGtCount d : ℚ) - matchVal threshold d σ := by
  rw [Finset.sum_congr rfl fun i _ => fn_mat_cell_of_structure threshold hfree i,
    Finset.sum_sub_distrib, sum_rRow]
  rfl

lemma sum_fp_mat_of_structure (threshold : ℚ) {d : SequenceData}
    {σ : Fin (d.num_gt_ids + d.num_tracker_ids) →
         Fin (d.num_gt_ids + d.num_tracker_ids)}
    (hσbij : Function.Bijective σ)
    (hfree : ∀ i : Fin (d.num_gt_ids + d.num_tracker_ids),
      d.num_gt_ids ≤ (i : ℕ) →
      (d.num_tracker_ids ≤ ((σ i : Fin _) : ℕ)
        ∨ (i : ℕ) = d.num_gt_ids + ((σ i : Fin _) : ℕ))) :
    (∑ i : Fin (d.num_gt_ids + d.num_tracker_ids), fp_mat threshold d i (σ i))
      = (sumTrackerCount d : ℚ) - matchVal threshold d σ := by
  rw [Finset.sum_congr rfl fun i _ => fp_mat_cell_of_structure threshold hfree i,
    Finset.sum_sub_distrib]
  have hs : (∑ i : Fin (d.num_gt_ids + d.num_tracker_ids), sCol d (σ i))
      = ∑ j : Fin (d.num_gt_ids + d.num_tracker_ids), sCol d j :=
    Fintype.sum_bijective σ hσbij _ _ fun i => rfl
  rw [hs, sum_sCol]
  rfl

lemma Identity_eval_emptyTracker {threshold : ℚ} {d : SequenceData}
    (σ : Fin (d.num_gt_ids + d.num_tracker_ids) →
         Fin (d.num_gt_ids + d.num_tracker_ids))
    (hT : d.num_tracker_dets = 0) :
    Identity.eval_sequence threshold d σ
      = compute_final_fields { initRes with IDFN := (d.num_gt_dets : ℚ) } := by
  unfold Identity.eval_sequence
  rw [if_pos hT]

lemma Identity_eval_emptyGt {threshold : ℚ} {d : SequenceData}
    (σ : Fin (d.num_gt_ids + d.num_tracker_ids) →
         Fin (d.num_gt_ids + d.num_tracker_ids))
    (hT : d.num_tracker_dets ≠ 0) (hG : d.num_gt_dets = 0) :
    Identity.eval_sequence threshold d σ
      = compute_final_fields { initRes with IDFP := (d.num_tracker_dets : ℚ) } := by
  unfold Identity.eval_sequence
  rw [if_neg hT, if_pos hG]

lemma Identity_eval_main {threshold : ℚ} {d : SequenceData}
    (σ : Fin (d.num_gt_ids + d.num_tracker_ids) →
         Fin (d.num_gt_ids + d.num_tracker_ids))
    (hT : d.num_tracker_dets ≠ 0) (hG : d.num_gt_dets ≠ 0) :
    Identity.eval_sequence threshold d σ
      = compute_final_fields { initRes with
          IDTP := (∑ g ∈ Finset.range d.num_gt_ids, (gt_id_count d g : ℚ))
            - ∑ i : Fin (d.num_gt_ids + d.num_tracker_ids), fn_mat threshold d i (σ i)
          IDFN := ∑ i : Fin (d.num_gt_ids + d.num_tracker_ids), fn_mat threshold d i (σ i)
          IDFP := ∑ i : Fin (d.num_gt_ids + d.num_tracker_ids), fp_mat threshold d i (σ i) } := by
  unfold Identity.eval_sequence
  rw [if_neg hT, if_neg hG]

lemma Track_eval_emptyTracker {threshold track_iou : ℚ} {d : SequenceData}
    (σ : Fin (d.num_gt_ids + d.num_tracker_ids) →
         Fin (d.num_gt_ids + d.num_tracker_ids))
    (hT : d.num_tracker_dets = 0) :
    TrackIdentity.eval_sequence threshold track_iou d σ
      = { initRes with IDFN := (d.num_gt_ids : ℚ) } := by
  unfold TrackIdentity.eval_sequence
  rw [if_pos hT]

lemma Track_eval_emptyGt {threshold track_iou : ℚ} {d : SequenceData}
    (σ : Fin (d.num_gt_ids + d.num_tracker_ids) →
         Fin (d.num_gt_ids + d.num_tracker_ids))
    (hT : d.num_tracker_dets ≠ 0) (hG : d.num_gt_dets = 0) :
    TrackIdentity.eval_sequence threshold track_iou d σ
      = { initRes with IDFP := (d.num_tracker_ids : ℚ) } := by
  unfold TrackIdentity.eval_sequence
  rw [if_neg hT, if_pos hG]

lemma Track_eval_main {threshold track_iou : ℚ} {d : SequenceData}
    (σ : Fin (d.num_gt_ids + d.num_tracker_ids) →
         Fin (d.num_gt_ids + d.num_tracker_ids))
    (hT : d.num_tracker_dets ≠ 0) (hG : d.num_gt_dets ≠ 0) :
    TrackIdentity.eval_sequence threshold track_iou d σ
      = compute_final_fields { initRes with
          IDTP := (d.num_gt_ids : ℚ)
            - ((sinkFN d σ : ℚ) + re_assigned threshold track_iou d σ)
          IDFN := (sinkFN d σ : ℚ) + re_assigned threshold track_iou d σ
          IDFP := (sinkFP d σ : ℚ) + re_assigned threshold track_iou d σ } := by
  unfold TrackIdentity.eval_sequence
  rw [if_neg hT, if_neg hG]

lemma Identity_eval_counts {threshold : ℚ} {d : SequenceData}
    (hwf : WellFormed d)
    (hT : d.num_tracker_dets ≠ 0) (hG : d.num_gt_dets ≠ 0)
    (hsize : 3 * (d.num_gt_dets + d.num_tracker_dets) < 10 ^ 10)
    {σ : Fin (d.num_gt_ids + d.num_tracker_ids) →
         Fin (d.num_gt_ids + d.num_tracker_ids)}
    (hσ : IsOptimalAssignment (d.num_gt_ids + d.num_tracker_ids)
      (costID threshold d) σ) :
    (Identity.eval_sequence threshold d σ).IDFN
        = (d.num_gt_dets : ℚ) - matchVal threshold d σ
      ∧ (Identity.eval_sequence threshold d σ).IDFP
        = (d.num_tracker_dets : ℚ) - matchVal threshold d σ
      ∧ (Identity.eval_sequence threshold d σ).IDTP = matchVal threshold d σ := by
  have hgt : sumGtCount d = d.num_gt_dets := sum_gt_id_count hwf
  have htr : sumTrackerCount d = d.num_tracker_dets := sum_tracker_id_count hwf
  have hsize' : 3 * (sumGtCount d + sumTrackerCount d) < 10 ^ 10 := by
    rw [hgt, htr]
    exact hsize
  have hfn := sum_fn_mat_of_structure threshold
    (fun i hi => optimal_gt_structure hsize' hσ i hi)
  have hfp := sum_fp_mat_of_structure threshold hσ.1
    (fun i hi => optimal_tracker_structure hsize' hσ i hi)
  have hcast : (∑ g ∈ Finset.range d.num_gt_ids, (gt_id_count d g : ℚ))
      = (sumGtCount d : ℚ) := (Nat.cast_sum _ _).symm
  rw [Identity_eval_main σ hT hG]
  refine ⟨?_, ?_, ?_⟩
  · rw [cff_update_IDFN, hfn, hgt]
  · rw [cff_update_IDFP, hfp, htr]
  · rw [cff_update_IDTP, hcast, hfn]
    ring1

lemma costID_real_lt {threshold : ℚ} {d : SequenceData}
    (hsize : sumGtCount d + sumTrackerCount d < 10 ^ 10)
    {g t : ℕ} (hg : g < d.num_gt_ids) (ht : t < d.num_tracker_ids) :
    costID threshold d g t < 10 ^ 10 := by
  unfold costID fn_mat fp_mat
  rw [if_pos hg, if_pos ht, if_pos ht, if_pos hg]
  have h1 : (gt_id_count d g : ℚ) ≤ (sumGtCount d : ℚ) :=
    Nat.cast_le.mpr (gt_id_count_le_sum hg)
  have h2 : (tracker_id_count d t : ℚ) ≤ (sumTrackerCount d : ℚ) :=
    Nat.cast_le.mpr (tracker_id_count_le_sum ht)
  have h3 : (sumGtCount d : ℚ) + (sumTrackerCount d : ℚ) < 10 ^ 10 := by
    exact_mod_cast hsize
  have h4 : (0 : ℚ) ≤ (potential_matches_count threshold d g t : ℚ) :=
    Nat.cast_nonneg _
  linarith

lemma div_bounds {a b m : ℚ} (hma : m ≤ a) (hmb : m ≤ b) (hm : 0 ≤ m) :
    0 ≤ (a + b - 2 * m) / (a + b - 2 * m + m)
      ∧ (a + b - 2 * m) / (a + b - 2 * m + m) ≤ 1 := by
  have hraw : 0 ≤ a + b - 2 * m := by linarith
  rcases eq_or_lt_of_le (show (0 : ℚ) ≤ a + b - 2 * m + m by linarith) with h | h
  · rw [← h, div_zero]
    exact ⟨le_refl 0, zero_le_one⟩
  · exact ⟨div_nonneg hraw (le_of_lt h), (div_le_one h).mpr (by linarith)⟩

/-- C4: the counts-to-ratios derivation `_compute_final_fields`, used
identically per sequence and after aggregation, computes
`IDR = 1` if `IDFN = 0` else `IDTP / max 1 (IDTP + IDFN)`;
`IDP = 1` if `IDFP = 0` else `IDTP / max 1 (IDTP + IDFP)`;
`IDF1 = 1` if `IDFN = 0` and `IDFP = 0` else
`IDTP / max 1 (IDTP + 0.5 IDFP + 0.5 IDFN)`; each divisor that is used is
at least `1`, so no unguarded division occurs for any counts, in particular
for any non-negative integer counts. -/
theorem C4_final_fields_derivation (res : MetricResult) :
    ((compute_final_fields res).IDR
        = if res.IDFN = 0 then 1 else res.IDTP / max 1 (res.IDTP + res.IDFN))
    ∧ ((compute_final_fields res).IDP
        = if res.IDFP = 0 then 1 else res.IDTP / max 1 (res.IDTP + res.IDFP))
    ∧ ((compute_final_fields res).IDF1
        = if res.IDFN = 0 ∧ res.IDFP = 0 then 1
          else res.IDTP
            / max 1 (res.IDTP + (1 / 2) * res.IDFP + (1 / 2) * res.IDFN))
    ∧ (1 : ℚ) ≤ max 1 (res.IDTP + res.IDFN)
    ∧ (1 : ℚ) ≤ max 1 (res.IDTP + res.IDFP)
    ∧ (1 : ℚ) ≤ max 1 (res.IDTP + (1 / 2) * res.IDFP + (1 / 2) * res.IDFN) := by
  refine ⟨?_, ?_, ?_, le_max_left 1 _, le_max_left 1 _, le_max_left 1 _⟩
  · unfold compute_final_fields
    by_cases h : res.IDFN = 0 <;> simp [h]
  · unfold compute_final_fields
    by_cases h : res.IDFP = 0 <;> simp [h]
  · unfold compute_final_fields
    by_cases h1 : res.IDFN = 0 <;> by_cases h2 : res.IDFP = 0 <;> simp [h1, h2]

/-- C1: for sequences with detections on both sides, the detection-level
cost matrix has summed cost `gtCount + trackerCount - 2 matchCount` on every
real-to-real cell (with the stated `fn` and `fp` parts), `gtCount g` at the
gt-self-sink cell `(g, T+g)`, `trackerCount t` at the tracker-self-sink cell
`(G+t, t)`, `0` at every sink-to-sink cell, and the penalty `1e10` — which
dominates every real-to-real cost — at every cross-sink cell. -/
theorem C1_detection_cost_matrix (threshold : ℚ) (d : SequenceData)
    (hG : 0 < d.num_gt_dets) (hT : 0 < d.num_tracker_dets)
    (hsize : sumGtCount d + sumTrackerCount d < 10 ^ 10) :
    (∀ g t, g < d.num_gt_ids → t < d.num_tracker_ids →
      fn_mat threshold d g t
          = (gt_id_count d g : ℚ) - potential_matches_count threshold d g t
        ∧ fp_mat threshold d g t
          = (tracker_id_count d t : ℚ) - potential_matches_count threshold d g t
        ∧ costID threshold d g t
          = (gt_id_count d g : ℚ) + tracker_id_count d t
            - 2 * potential_matches_count threshold d g t)
    ∧ (∀ g, g < d.num_gt_ids →
        costID threshold d g (d.num_tracker_ids + g) = (gt_id_count d g : ℚ))
    ∧ (∀ t, t < d.num_tracker_ids →
        costID threshold d (d.num_gt_ids + t) t = (tracker_id_count d t : ℚ))
    ∧ (∀ g t, g < d.num_gt_ids → t < d.num_tracker_ids →
        costID threshold d (d.num_gt_ids + t) (d.num_tracker_ids + g) = 0)
    ∧ (∀ g g', g < d.num_gt_ids → g' < d.num_gt_ids → g ≠ g' →
        costID threshold d g (d.num_tracker_ids + g') = 10 ^ 10)
    ∧ (∀ t t', t < d.num_tracker_ids → t' < d.num_tracker_ids → t ≠ t' →
        costID threshold d (d.num_gt_ids + t) t' = 10 ^ 10)
    ∧ (∀ g t, g < d.num_gt_ids → t < d.num_tracker_ids →
        costID threshold d g t < 10 ^ 10) := by
  refine ⟨fun g t hg ht => ⟨?_, ?_, ?_⟩, fun g hg => ?_, fun t ht => ?_,
    fun g t hg ht => ?_, fun g g' hg hg' hne => ?_, fun t t' ht ht' hne => ?_,
    fun g t hg ht => costID_real_lt hsize hg ht⟩
  · unfold fn_mat
    rw [if_pos hg, if_pos ht]
  · unfold fp_mat
    rw [if_pos ht, if_pos hg]
  · unfold costID fn_mat fp_mat
    rw [if_pos hg, if_pos ht, if_pos ht, if_pos hg]
    ring1
  · unfold costID fn_mat fp_mat
    rw [if_pos hg,
      if_neg (show ¬ d.num_tracker_ids + g < d.num_tracker_ids by omega),
      if_pos rfl,
      if_neg (show ¬ d.num_tracker_ids + g < d.num_tracker_ids by omega)]
    ring1
  · unfold costID fn_mat fp_mat
    rw [if_neg (show ¬ d.num_gt_ids + t < d.num_gt_ids by omega), if_pos ht,
      if_neg (show ¬ d.num_gt_ids + t < d.num_gt_ids by omega), if_pos rfl]
    ring1
  · unfold costID fn_mat fp_mat
    rw [if_neg (show ¬ d.num_gt_ids + t < d.num_gt_ids by omega),
      if_neg (show ¬ d.num_tracker_ids + g < d.num_tracker_ids by omega)]
    ring1
  · unfold costID fn_mat fp_mat
    rw [if_pos hg,
      if_neg (show ¬ d.num_tracker_ids + g' < d.num_tracker_ids by omega),
      if_neg (show ¬ d.num_tracker_ids + g' = d.num_tracker_ids + g by omega),
      if_neg (show ¬ d.num_tracker_ids + g' < d.num_tracker_ids by omega)]
    ring1
  · unfold costID fn_mat fp_mat
    rw [if_neg (show ¬ d.num_gt_ids + t < d.num_gt_ids by omega), if_pos ht',
      if_neg (show ¬ d.num_gt_ids + t < d.num_gt_ids by omega),
      if_neg (show ¬ d.num_gt_ids + t = d.num_gt_ids + t' by omega)]
    ring1

/-- Witness for C1: the cell formulas evaluated on the concrete one-frame
example sequence. -/
theorem C1_witness :
    (costID (1 / 2) exSeq (exSeq.num_gt_ids + 0) 0 = (tracker_id_count exSeq 0 : ℚ))
      ∧ tracker_id_count exSeq 0 = 1 :=
  ⟨(C1_detection_cost_matrix (1 / 2) exSeq (by decide) (by decide)
      (by decide)).2.2.1 0 (by decide), by decide⟩

/-- C2: for sequences with detections on both sides, the track-level cost
matrix has `raw / (raw + matchCount)` with
`raw = gtCount + trackerCount - 2 matchCount` on every real-to-real cell,
a value bounded in `[0, 1]`; `1 - 1e-6` at the two self-sink diagonals;
`1` at every off-diagonal sink cell; and `1` at every sink-to-sink cell. -/
theorem C2_track_cost_matrix (threshold : ℚ) (d : SequenceData)
    (hG : 0 < d.num_gt_dets) (hT : 0 < d.num_tracker_dets) :
    (∀ g t, g < d.num_gt_ids → t < d.num_tracker_ids →
      costTrack threshold d g t
          = ((gt_id_count d g : ℚ) + tracker_id_count d t
              - 2 * potential_matches_count threshold d g t)
            / ((gt_id_count d g : ℚ) + tracker_id_count d t
              - 2 * potential_matches_count threshold d g t
              + potential_matches_count threshold d g t)
        ∧ 0 ≤ costTrack threshold d g t ∧ costTrack threshold d g t ≤ 1)
    ∧ (∀ g, g < d.num_gt_ids →
        costTrack threshold d g (d.num_tracker_ids + g) = 1 - 1 / 1000000)
    ∧ (∀ t, t < d.num_tracker_ids →
        costTrack threshold d (d.num_gt_ids + t) t = 1 - 1 / 1000000)
    ∧ (∀ g g', g < d.num_gt_ids → g' < d.num_gt_ids → g ≠ g' →
        costTrack threshold d g (d.num_tracker_ids + g') = 1)
    ∧ (∀ t t', t < d.num_tracker_ids → t' < d.num_tracker_ids → t ≠ t' →
        costTrack threshold d (d.num_gt_ids + t) t' = 1)
    ∧ (∀ g t, g < d.num_gt_ids → t < d.num_tracker_ids →
        costTrack threshold d (d.num_gt_ids + t) (d.num_tracker_ids + g) = 1) := by
  refine ⟨fun g t hg ht => ⟨?_, ?_⟩, fun g hg => ?_, fun t ht => ?_,
    fun g g' hg hg' hne => ?_, fun t t' ht ht' hne => ?_, fun g t hg ht => ?_⟩
  · unfold costTrack
    rw [if_pos hg, if_pos ht]
  · have hcell : costTrack threshold d g t
        = ((gt_id_count d g : ℚ) + tracker_id_count d t
            - 2 * potential_matches_count threshold d g t)
          / ((gt_id_count d g : ℚ) + tracker_id_count d t
            - 2 * potential_matches_count threshold d g t
            + potential_matches_count threshold d g t) := by
      unfold costTrack
      rw [if_pos hg, if_pos ht]
    rw [hcell]
    exact div_bounds
      (Nat.cast_le.mpr (potential_matches_count_le_gt_id_count threshold d g t))
      (Nat.cast_le.mpr (potential_matches_count_le_tracker_id_count threshold d g t))
      (Nat.cast_nonneg _)
  · unfold costTrack
    rw [if_pos hg,
      if_neg (show ¬ d.num_tracker_ids + g < d.num_tracker_ids by omega),
      if_pos rfl]
  · unfold costTrack
    rw [if_neg (show ¬ d.num_gt_ids + t < d.num_gt_ids by omega), if_pos ht,
      if_pos rfl]
  · unfold costTrack
    rw [if_pos hg,
      if_neg (show ¬ d.num_tracker_ids + g' < d.num_tracker_ids by omega),
      if_neg (show ¬ d.num_tracker_ids + g' = d.num_tracker_ids + g by omega)]
  · unfold costTrack
    rw [if_neg (show ¬ d.num_gt_ids + t < d.num_gt_ids by omega), if_pos ht',
      if_neg (show ¬ d.num_gt_ids + t = d.num_gt_ids + t' by omega)]
  · unfold costTrack
    rw [if_neg (show ¬ d.num_gt_ids + t < d.num_gt_ids by omega),
      if_neg (show ¬ d.num_tracker_ids + g < d.num_tracker_ids by omega)]

/-- Witness for C2: the self-sink cost evaluated on the concrete one-frame
example sequence. -/
theorem C2_witness :
    costTrack (1 / 2) exSeq 0 (exSeq.num_tracker_ids + 0) = 1 - 1 / 1000000 :=
  (C2_track_cost_matrix (1 / 2) exSeq (by decide) (by decide)).2.1 0 (by decide)

/-- C10: under the input invariants (each declared identity appears in at
least one frame; frames list each identity at most once), the match count
of a real-to-real cell is bounded by both marginal counts, and the
denominator `raw + matchCount = gtCount + trackerCount - matchCount` of the
track-level normalisation is at least `1`, hence nonzero: the elementwise
division never divides by zero. -/
theorem C10_normalization_denominator (threshold : ℚ) (d : SequenceData)
    (hwf : WellFormed d) (happ : AllIdsAppear d) (g t : ℕ)
    (hg : g < d.num_gt_ids) (ht : t < d.num_tracker_ids) :
    (potential_matches_count threshold d g t ≤ gt_id_count d g
      ∧ potential_matches_count threshold d g t ≤ tracker_id_count d t)
    ∧ (1 : ℚ) ≤ ((gt_id_count d g : ℚ) + tracker_id_count d t
        - 2 * potential_matches_count threshold d g t)
        + potential_matches_count threshold d g t
    ∧ ((gt_id_count d g : ℚ) + tracker_id_count d t
        - 2 * potential_matches_count threshold d g t)
        + potential_matches_count threshold d g t ≠ 0 := by
  have h1 : 1 ≤ gt_id_count d g := one_le_gt_id_count (happ.1 g hg)
  have h2 : 1 ≤ tracker_id_count d t := one_le_tracker_id_count (happ.2 t ht)
  have c1 : (1 : ℚ) ≤ (gt_id_count d g : ℚ) := by exact_mod_cast h1
  have c2 : (1 : ℚ) ≤ (tracker_id_count d t : ℚ) := by exact_mod_cast h2
  have cm : (potential_matches_count threshold d g t : ℚ) ≤ tracker_id_count d t :=
    Nat.cast_le.mpr (potential_matches_count_le_tracker_id_count threshold d g t)
  have hden : (1 : ℚ) ≤ ((gt_id_count d g : ℚ) + tracker_id_count d t
      - 2 * potential_matches_count threshold d g t)
      + potential_matches_count threshold d g t := by linarith
  exact ⟨⟨potential_matches_count_le_gt_id_count threshold d g t,
    potential_matches_count_le_tracker_id_count threshold d g t⟩,
    hden, by linarith⟩

lemma rejectStep_eq {threshold track_iou : ℚ} {d : SequenceData} {g t : ℕ}
    (hne : tracker_id_count d t ≠ 0) :
    rejectStep threshold track_iou d g t
      = if (potential_matches_count threshold d g t : ℚ) / tracker_id_count d t
            ≤ track_iou
        then 1 else 0 := by
  unfold rejectStep
  by_cases h : (potential_matches_count threshold d g t : ℚ) / tracker_id_count d t
      ≤ track_iou
  · rw [if_pos ⟨hne, h⟩, if_pos h]
  · rw [if_neg (fun hc => h hc.2), if_neg h]

lemma rejectStep_iff {threshold track_iou : ℚ} {d : SequenceData} {g t : ℕ}
    (hne : tracker_id_count d t ≠ 0) :
    (rejectStep threshold track_iou d g t = 1
      ↔ (potential_matches_count threshold d g t : ℚ) / tracker_id_count d t
          ≤ track_iou)
    ∧ (rejectStep threshold track_iou d g t = 0
      ↔ track_iou
          < (potential_matches_count threshold d g t : ℚ) / tracker_id_count d t) := by
  rw [rejectStep_eq hne]
  by_cases h : (potential_matches_count threshold d g t : ℚ) / tracker_id_count d t
      ≤ track_iou
  · rw [if_pos h]
    exact ⟨⟨fun _ => h, fun _ => rfl⟩,
      ⟨fun h0 => absurd h0 (by decide), fun hlt => absurd h (not_le.mpr hlt)⟩⟩
  · rw [if_neg h]
    exact ⟨⟨fun h0 => absurd h0 (by decide), fun hc => absurd hc h⟩,
      ⟨fun _ => not_le.mp h, fun _ => rfl⟩⟩

/-- C5: for every sequence with detections on both sides in which every
tracker identity appears, and every assignment, a matched real-to-real pair
is counted in `re_assigned` (contributing one unit to both `IDFN` and
`IDFP`) exactly when its overlap ratio `matchCount / trackerCount` is `≤`
the track threshold — exact equality with the threshold included — and
pairs with a strictly greater ratio contribute to neither. -/
theorem C5_track_rejection_boundary (threshold track_iou : ℚ) (d : SequenceData)
    (happ : ∀ t < d.num_tracker_ids, ∃ f ∈ d.frames, t ∈ f.tracker_ids)
    (hT : d.num_tracker_dets ≠ 0) (hG : d.num_gt_dets ≠ 0)
    (σ : Fin (d.num_gt_ids + d.num_tracker_ids) →
         Fin (d.num_gt_ids + d.num_tracker_ids)) :
    (∀ i : Fin (d.num_gt_ids + d.num_tracker_ids),
      (i : ℕ) < d.num_gt_ids → ((σ i : Fin _) : ℕ) < d.num_tracker_ids →
      (rejectStep threshold track_iou d i (σ i) = 1
          ↔ (potential_matches_count threshold d i (σ i) : ℚ)
              / tracker_id_count d (σ i) ≤ track_iou)
        ∧ (rejectStep threshold track_iou d i (σ i) = 0
          ↔ track_iou < (potential_matches_count threshold d i (σ i) : ℚ)
              / tracker_id_count d (σ i)))
    ∧ (TrackIdentity.eval_sequence threshold track_iou d σ).IDFN
        = (sinkFN d σ : ℚ) + re_assigned threshold track_iou d σ
    ∧ (TrackIdentity.eval_sequence threshold track_iou d σ).IDFP
        = (sinkFP d σ : ℚ) + re_assigned threshold track_iou d σ
    ∧ re_assigned threshold track_iou d σ
        = ∑ i : Fin (d.num_gt_ids + d.num_tracker_ids),
            if (i : ℕ) < d.num_gt_ids
                ∧ ((σ i : Fin _) : ℕ) < d.num_tracker_ids
                ∧ (potential_matches_count threshold d i (σ i) : ℚ)
                    / tracker_id_count d (σ i) ≤ track_iou
            then 1 else 0 := by
  have hne : ∀ t, t < d.num_tracker_ids → tracker_id_count d t ≠ 0 := by
    intro t ht
    have h := one_le_tracker_id_count (happ t ht)
    omega
  refine ⟨fun i hi hσi => rejectStep_iff (hne _ hσi), ?_, ?_, ?_⟩
  · rw [Track_eval_main σ hT hG, cff_update_IDFN]
  · rw [Track_eval_main σ hT hG, cff_update_IDFP]
  · unfold re_assigned
    refine Finset.sum_congr rfl fun i _ => ?_
    by_cases hm : (i : ℕ) < d.num_gt_ids ∧ ((σ i : Fin _) : ℕ) < d.num_tracker_ids
    · rw [if_pos hm, rejectStep_eq (hne _ hm.2)]
      by_cases hr : (potential_matches_count threshold d i (σ i) : ℚ)
          / tracker_id_count d (σ i) ≤ track_iou
      · rw [if_pos hr, if_pos ⟨hm.1, hm.2, hr⟩]
      · rw [if_neg hr, if_neg (fun hc => hr hc.2.2)]
    · rw [if_neg hm, if_neg (fun hc => hm ⟨hc.1, hc.2.1⟩)]

/-- Witness for C5 at the exact rejection boundary: on the five-frame
example sequence the overlap ratio is exactly `1/5 = TRACK_IOU_THRESH`, and
the pair is rejected. -/
theorem C5_witness :
    rejectStep 1 (1 / 5) exSeqB 0 0 = 1 := by
  have hm : potential_matches_count 1 exSeqB 0 0 = 1 := by decide
  have htc : tracker_id_count exSeqB 0 = 5 := by decide
  have hratio : (potential_matches_count 1 exSeqB 0 0 : ℚ)
      / (tracker_id_count exSeqB 0 : ℚ) ≤ 1 / 5 := by
    rw [hm, htc]
    norm_num
  exact ((C5_track_rejection_boundary 1 (1 / 5) exSeqB (by decide) (by decide)
    (by decide) id).1 ⟨0, by decide⟩ (by decide) (by decide)).1.mpr hratio

/-- C3: for every well-formed sequence, in all branches of
`Identity.eval_sequence` (shortcuts included) the returned counts satisfy
`IDTP + IDFN = numGtDetections` and `IDTP = numGtDetections - IDFN`; in the
main branch `IDFN` and `IDFP` are the sums of `fn_mat` and `fp_mat` over
the matched pairs of the assignment. -/
theorem C3_gt_detection_conservation (threshold : ℚ) (d : SequenceData)
    (hwf : WellFormed d)
    (σ : Fin (d.num_gt_ids + d.num_tracker_ids) →
         Fin (d.num_gt_ids + d.num_tracker_ids)) :
    ((Identity.eval_sequence threshold d σ).IDTP
        + (Identity.eval_sequence threshold d σ).IDFN = (d.num_gt_dets : ℚ))
    ∧ ((Identity.eval_sequence threshold d σ).IDTP
        = (d.num_gt_dets : ℚ) - (Identity.eval_sequence threshold d σ).IDFN)
    ∧ (d.num_tracker_dets ≠ 0 → d.num_gt_dets ≠ 0 →
        (Identity.eval_sequence threshold d σ).IDFN
            = (∑ i : Fin (d.num_gt_ids + d.num_tracker_ids),
                fn_mat threshold d i (σ i))
          ∧ (Identity.eval_sequence threshold d σ).IDFP
            = ∑ i : Fin (d.num_gt_ids + d.num_tracker_ids),
                fp_mat threshold d i (σ i)) := by
  by_cases hT : d.num_tracker_dets = 0
  · rw [Identity_eval_emptyTracker σ hT]
    refine ⟨?_, ?_, fun h _ => absurd hT h⟩
    · show (0 : ℚ) + (d.num_gt_dets : ℚ) = (d.num_gt_dets : ℚ)
      ring1
    · show (0 : ℚ) = (d.num_gt_dets : ℚ) - (d.num_gt_dets : ℚ)
      ring1
  · by_cases hG : d.num_gt_dets = 0
    · rw [Identity_eval_emptyGt σ hT hG, hG]
      refine ⟨?_, ?_, fun _ h => absurd rfl h⟩
      · show (0 : ℚ) + 0 = ((0 : ℕ) : ℚ)
        norm_num
      · show (0 : ℚ) = ((0 : ℕ) : ℚ) - 0
        norm_num
    · rw [Identity_eval_main σ hT hG]
      have hgt : sumGtCount d = d.num_gt_dets := sum_gt_id_count hwf
      have hcast : (∑ g ∈ Finset.range d.num_gt_ids, (gt_id_count d g : ℚ))
          = (sumGtCount d : ℚ) := by
        unfold sumGtCount
        rw [Nat.cast_sum]
      refine ⟨?_, ?_, fun _ _ => ⟨?_, ?_⟩⟩
      · rw [cff_update_IDTP, cff_update_IDFN, hcast, hgt]
        ring1
      · rw [cff_update_IDTP, cff_update_IDFN, hcast, hgt]
      · rw [cff_update_IDFN]
      · rw [cff_update_IDFP]

/-- Witness for C3 on the concrete one-frame example sequence, with the
identity assignment. -/
theorem C3_witness :
    (Identity.eval_sequence (1 / 2) exSeq id).IDTP
      + (Identity.eval_sequence (1 / 2) exSeq id).IDFN = (exSeq.num_gt_dets : ℚ) :=
  (C3_gt_detection_conservation (1 / 2) exSeq (by unfold WellFormed; decide) id).1

/-- C7 counterexample: on a concrete empty-tracker sequence the track-level
shortcut returns `IDP = 0`, while the §4.4 derivation applied to the
shortcut counts yields `IDP = 1` (because `IDFP = 0`); in particular the
returned result is not the derivation of those counts, contrary to the
claim. -/
theorem C7_counterexample :
    (TrackIdentity.eval_sequence (1 / 2) (1 / 5) exSeqEmptyTracker id).IDP = 0
      ∧ (compute_final_fields { initRes with
          IDFN := (exSeqEmptyTracker.num_gt_ids : ℚ) }).IDP = 1
      ∧ TrackIdentity.eval_sequence (1 / 2) (1 / 5) exSeqEmptyTracker id
          ≠ compute_final_fields { initRes with
              IDFN := (exSeqEmptyTracker.num_gt_ids : ℚ) } := by
  refine ⟨by decide, by decide, fun heq => ?_⟩
  have h1 : (TrackIdentity.eval_sequence (1 / 2) (1 / 5) exSeqEmptyTracker id).IDP
      = 0 := by decide
  have h2 : (compute_final_fields { initRes with
      IDFN := (exSeqEmptyTracker.num_gt_ids : ℚ) }).IDP = 1 := by decide
  rw [heq, h2] at h1
  exact one_ne_zero h1

/-- C7 amended: the track-level empty-sequence shortcuts return the
identity-count integer fields exactly as claimed, but leave every float
field at its initial `0`: `_compute_final_fields` is not applied in these
branches (so `IDP = 0`, not `1`, in the empty-tracker case). -/
theorem C7_amended_track_shortcuts (threshold track_iou : ℚ) (d : SequenceData)
    (σ : Fin (d.num_gt_ids + d.num_tracker_ids) →
         Fin (d.num_gt_ids + d.num_tracker_ids)) :
    (d.num_tracker_dets = 0 →
      TrackIdentity.eval_sequence threshold track_iou d σ
        = { IDTP := 0, IDFN := (d.num_gt_ids : ℚ), IDFP := 0,
            IDF1 := 0, IDR := 0, IDP := 0 })
    ∧ (d.num_tracker_dets ≠ 0 → d.num_gt_dets = 0 →
      TrackIdentity.eval_sequence threshold track_iou d σ
        = { IDTP := 0, IDFN := 0, IDFP := (d.num_tracker_ids : ℚ),
            IDF1 := 0, IDR := 0, IDP := 0 }) := by
  constructor
  · intro hT
    rw [Track_eval_emptyTracker σ hT]
    rfl
  · intro hT hG
    rw [Track_eval_emptyGt σ hT hG]
    rfl

/-- Witness for the amended C7 on the concrete empty-tracker sequence. -/
theorem C7_witness :
    exSeqEmptyTracker.num_tracker_dets = 0
      ∧ TrackIdentity.eval_sequence (1 / 2) (1 / 5) exSeqEmptyTracker id
          = { IDTP := 0, IDFN := (exSeqEmptyTracker.num_gt_ids : ℚ), IDFP := 0,
              IDF1 := 0, IDR := 0, IDP := 0 } :=
  ⟨by decide, (C7_amended_track_shortcuts (1 / 2) (1 / 5) exSeqEmptyTracker id).1
    (by decide)⟩

/-- C8: `TrackIdentity.combine_sequences` sums the integer fields into every
result it returns; mode `"micro"` re-derives the float fields from the
summed counts via `_compute_final_fields`, mode `"macro"` sets each float
field to the arithmetic mean of the per-sequence values of that field, and
any other mode string yields the `ValueError` message and never a result. -/
theorem C8_track_combine_sequences (allRes : List MetricResult)
    (average : String) :
    (∀ r, TrackIdentity.combine_sequences allRes average = Except.ok r →
        r.IDTP = (allRes.map (fun x => x.IDTP)).sum
          ∧ r.IDFN = (allRes.map (fun x => x.IDFN)).sum
          ∧ r.IDFP = (allRes.map (fun x => x.IDFP)).sum)
    ∧ TrackIdentity.combine_sequences allRes "micro"
        = Except.ok (compute_final_fields { initRes with
            IDTP := (allRes.map (fun x => x.IDTP)).sum
            IDFN := (allRes.map (fun x => x.IDFN)).sum
            IDFP := (allRes.map (fun x => x.IDFP)).sum })
    ∧ (∀ r, TrackIdentity.combine_sequences allRes "macro" = Except.ok r →
        r.IDF1 = (allRes.map (fun x => x.IDF1)).sum / allRes.length
          ∧ r.IDR = (allRes.map (fun x => x.IDR)).sum / allRes.length
          ∧ r.IDP = (allRes.map (fun x => x.IDP)).sum / allRes.length)
    ∧ (average ≠ "micro" → average ≠ "macro" →
        TrackIdentity.combine_sequences allRes average
            = Except.error ("Unexpected average value: " ++ average)
          ∧ ∀ r, TrackIdentity.combine_sequences allRes average ≠ Except.ok r) := by
  refine ⟨?_, ?_, ?_, ?_⟩
  · intro r h
    unfold TrackIdentity.combine_sequences at h
    by_cases h1 : average = "micro"
    · rw [if_pos h1] at h
      have hr := Except.ok.inj h
      subst hr
      exact ⟨rfl, rfl, rfl⟩
    · rw [if_neg h1] at h
      by_cases h2 : average = "macro"
      · rw [if_pos h2] at h
        have hr := Except.ok.inj h
        subst hr
        exact ⟨rfl, rfl, rfl⟩
      · rw [if_neg h2] at h
        exact Except.noConfusion h
  · unfold TrackIdentity.combine_sequences
    rw [if_pos rfl]
    rfl
  · intro r h
    unfold TrackIdentity.combine_sequences at h
    rw [if_neg (by decide), if_pos rfl] at h
    have hr := Except.ok.inj h
    subst hr
    refine ⟨?_, ?_, ?_⟩ <;>
      · show listMean _ = _
        unfold listMean
        rw [List.length_map]
  · intro h1 h2
    unfold TrackIdentity.combine_sequences
    rw [if_neg h1, if_neg h2]
    exact ⟨rfl, fun r h => Except.noConfusion h⟩

/-- Witness for C8: an unrecognized mode on concrete inputs produces the
error, and micro aggregation of two concrete results. -/
theorem C8_witness :
    TrackIdentity.combine_sequences [exRes1, exRes2] "bogus"
      = Except.error ("Unexpected average value: " ++ "bogus") :=
  ((C8_track_combine_sequences [exRes1, exRes2] "bogus").2.2.2
    (by decide) (by decide)).1

lemma fin_two_cases (x : Fin 2) : x = 0 ∨ x = 1 := by
  revert x
  decide

lemma isOptimal_two {c : ℕ → ℕ → ℚ} (h : c 0 0 + c 1 1 ≤ c 0 1 + c 1 0) :
    IsOptimalAssignment 2 c id := by
  refine ⟨Function.bijective_id, fun τ hτ => ?_⟩
  have hid : permCost 2 c id = c 0 0 + c 1 1 := by
    unfold permCost
    rw [Fin.sum_univ_two]
    rfl
  rcases fin_two_cases (τ 0) with h0 | h0 <;> rcases fin_two_cases (τ 1) with h1 | h1
  · exact absurd (hτ.1 (h0.trans h1.symm)) (by decide)
  · have hτc : permCost 2 c τ = c 0 0 + c 1 1 := by
      unfold permCost
      rw [Fin.sum_univ_two, h0, h1]
      rfl
    rw [hid, hτc]
  · have hτc : permCost 2 c τ = c 0 1 + c 1 0 := by
      unfold permCost
      rw [Fin.sum_univ_two, h0, h1]
      rfl
    rw [hid, hτc]
    exact h
  · exact absurd (hτ.1 (h0.trans h1.symm)) (by decide)

lemma exSeq_cell00 (th : ℚ) :
    costID th exSeq 0 0 = 2 - 2 * (potential_matches_count th exSeq 0 0 : ℚ) := by
  have hg : gt_id_count exSeq 0 = 1 := by decide
  have htc : tracker_id_count exSeq 0 = 1 := by decide
  unfold costID fn_mat fp_mat
  rw [if_pos (show (0 : ℕ) < exSeq.num_gt_ids by decide),
    if_pos (show (0 : ℕ) < exSeq.num_tracker_ids by decide),
    if_pos (show (0 : ℕ) < exSeq.num_tracker_ids by decide),
    if_pos (show (0 : ℕ) < exSeq.num_gt_ids by decide), hg, htc]
  push_cast
  ring

lemma exSeq_cell01 (th : ℚ) : costID th exSeq 0 1 = 1 := by
  have hg : gt_id_count exSeq 0 = 1 := by decide
  unfold costID fn_mat fp_mat
  rw [if_pos (show (0 : ℕ) < exSeq.num_gt_ids by decide),
    if_neg (show ¬ (1 : ℕ) < exSeq.num_tracker_ids by decide),
    if_pos (show (1 : ℕ) = exSeq.num_tracker_ids + 0 by decide),
    if_neg (show ¬ (1 : ℕ) < exSeq.num_tracker_ids by decide), hg]
  push_cast
  ring

lemma exSeq_cell10 (th : ℚ) : costID th exSeq 1 0 = 1 := by
  have htc : tracker_id_count exSeq 0 = 1 := by decide
  unfold costID fn_mat fp_mat
  rw [if_neg (show ¬ (1 : ℕ) < exSeq.num_gt_ids by decide),
    if_pos (show (0 : ℕ) < exSeq.num_tracker_ids by decide),
    if_neg (show ¬ (1 : ℕ) < exSeq.num_gt_ids by decide),
    if_pos (show (1 : ℕ) = exSeq.num_gt_ids + 0 by decide), htc]
  push_cast
  ring

lemma exSeq_cell11 (th : ℚ) : costID th exSeq 1 1 = 0 := by
  unfold costID fn_mat fp_mat
  rw [if_neg (show ¬ (1 : ℕ) < exSeq.num_gt_ids by decide),
    if_neg (show ¬ (1 : ℕ) < exSeq.num_tracker_ids by decide)]
  ring1

lemma exSeq_id_optimal (th : ℚ) :
    IsOptimalAssignment (exSeq.num_gt_ids + exSeq.num_tracker_ids)
      (costID th exSeq) id := by
  apply isOptimal_two
  rw [exSeq_cell00 th, exSeq_cell11 th, exSeq_cell01 th, exSeq_cell10 th]
  have hm : (0 : ℚ) ≤ (potential_matches_count th exSeq 0 0 : ℚ) :=
    Nat.cast_nonneg _
  linarith

/-- C6: for a fixed well-formed sequence, raising the similarity threshold
weakly decreases every `matchCount[g, t]`, and for optimal assignments at
the two thresholds the detection-level results satisfy
`IDTP(th₂) ≤ IDTP(th₁)`, `IDFN(th₁) ≤ IDFN(th₂)` and
`IDFP(th₁) ≤ IDFP(th₂)`. -/
theorem C6_threshold_monotonicity (d : SequenceData) (hwf : WellFormed d)
    (hsize : 3 * (d.num_gt_dets + d.num_tracker_dets) < 10 ^ 10)
    (th₁ th₂ : ℚ) (hth : th₁ ≤ th₂)
    (σ₁ σ₂ : Fin (d.num_gt_ids + d.num_tracker_ids) →
         Fin (d.num_gt_ids + d.num_tracker_ids))
    (hσ₁ : IsOptimalAssignment (d.num_gt_ids + d.num_tracker_ids)
      (costID th₁ d) σ₁)
    (hσ₂ : IsOptimalAssignment (d.num_gt_ids + d.num_tracker_ids)
      (costID th₂ d) σ₂) :
    (∀ g t, potential_matches_count th₂ d g t ≤ potential_matches_count th₁ d g t)
    ∧ (Identity.eval_sequence th₂ d σ₂).IDTP ≤ (Identity.eval_sequence th₁ d σ₁).IDTP
    ∧ (Identity.eval_sequence th₁ d σ₁).IDFN ≤ (Identity.eval_sequence th₂ d σ₂).IDFN
    ∧ (Identity.eval_sequence th₁ d σ₁).IDFP ≤ (Identity.eval_sequence th₂ d σ₂).IDFP := by
  refine ⟨fun g t => potential_matches_count_anti hth d g t, ?_⟩
  by_cases hT : d.num_tracker_dets = 0
  · rw [Identity_eval_emptyTracker σ₁ hT, Identity_eval_emptyTracker σ₂ hT]
    exact ⟨le_refl _, le_refl _, le_refl _⟩
  by_cases hG : d.num_gt_dets = 0
  · rw [Identity_eval_emptyGt σ₁ hT hG, Identity_eval_emptyGt σ₂ hT hG]
    exact ⟨le_refl _, le_refl _, le_refl _⟩
  have hgt : sumGtCount d = d.num_gt_dets := sum_gt_id_count hwf
  have htr : sumTrackerCount d = d.num_tracker_dets := sum_tracker_id_count hwf
  have hsize' : 3 * (sumGtCount d + sumTrackerCount d) < 10 ^ 10 := by
    rw [hgt, htr]
    exact hsize
  have h1 := Identity_eval_counts hwf hT hG hsize hσ₁
  have h2 := Identity_eval_counts hwf hT hG hsize hσ₂
  have hmono : matchVal th₂ d σ₂ ≤ matchVal th₁ d σ₂ := by
    unfold matchVal
    refine Finset.sum_le_sum fun i _ => ?_
    unfold muCell
    split_ifs
    · exact Nat.cast_le.mpr (potential_matches_count_anti hth d _ _)
    · exact le_refl 0
  have hp1 : penVal d σ₁ = 0 := penVal_eq_zero_of_optimal hsize' hσ₁
  have hp2 : penVal d σ₂ = 0 := penVal_eq_zero_of_optimal hsize' hσ₂
  have hle := hσ₁.2 σ₂ hσ₂.1
  rw [permCost_costID th₁ d hσ₁.1, permCost_costID th₁ d hσ₂.1, hp1, hp2] at hle
  have hopt : matchVal th₁ d σ₂ ≤ matchVal th₁ d σ₁ := by linarith
  have hkey : matchVal th₂ d σ₂ ≤ matchVal th₁ d σ₁ := le_trans hmono hopt
  refine ⟨?_, ?_, ?_⟩
  · rw [h2.2.2, h1.2.2]
    exact hkey
  · rw [h1.1, h2.1]
    linarith
  · rw [h1.2.1, h2.2.1]
    linarith

/-- Witness for C6 on the concrete one-frame example sequence, with
thresholds 1 and 2 and the identity assignment, optimal at both. -/
theorem C6_witness :
    (Identity.eval_sequence 2 exSeq id).IDTP
      ≤ (Identity.eval_sequence 1 exSeq id).IDTP :=
  (C6_threshold_monotonicity exSeq (by unfold WellFormed; decide) (by decide)
    1 2 (by norm_num) id id (exSeq_id_optimal 1) (exSeq_id_optimal 2)).2.1

lemma cff_update_IDR (a b c : ℚ) :
    (compute_final_fields { initRes with IDTP := a, IDFN := b, IDFP := c }).IDR
      = if b ≠ 0 then a / max 1 (a + b) else 1 := rfl

lemma cff_update_IDPfield (a b c : ℚ) :
    (compute_final_fields { initRes with IDTP := a, IDFN := b, IDFP := c }).IDP
      = if c ≠ 0 then a / max 1 (a + c) else 1 := rfl

lemma cff_update_IDF1 (a b c : ℚ) :
    (compute_final_fields { initRes with IDTP := a, IDFN := b, IDFP := c }).IDF1
      = if b ≠ 0 ∨ c ≠ 0 then a / max 1 (a + (1 / 2) * c + (1 / 2) * b)
        else 1 := rfl

lemma div_max_bounds {x y : ℚ} (hx : 0 ≤ x) (hxy : x ≤ y) :
    0 ≤ x / max 1 y ∧ x / max 1 y ≤ 1 := by
  have hpos : (0 : ℚ) < max 1 y := lt_of_lt_of_le one_pos (le_max_left 1 y)
  exact ⟨div_nonneg hx (le_of_lt hpos),
    (div_le_one hpos).mpr (le_trans hxy (le_max_right 1 y))⟩

lemma cff_update_valid {a b c : ℚ} (ha : 0 ≤ a) (hb : 0 ≤ b) (hc : 0 ≤ c) :
    ValidResult (compute_final_fields
      { initRes with IDTP := a, IDFN := b, IDFP := c }) := by
  unfold ValidResult
  rw [cff_update_IDTP, cff_update_IDFN, cff_update_IDFP, cff_update_IDF1,
    cff_update_IDR, cff_update_IDPfield]
  refine ⟨ha, hb, hc, ?_, ?_, ?_, ?_, ?_, ?_⟩
  · split_ifs with h
    · exact (div_max_bounds ha (by linarith)).1
    · norm_num
  · split_ifs with h
    · exact (div_max_bounds ha (by linarith)).2
    · norm_num
  · split_ifs with h
    · exact (div_max_bounds ha (by linarith)).1
    · norm_num
  · split_ifs with h
    · exact (div_max_bounds ha (by linarith)).2
    · norm_num
  · split_ifs with h
    · exact (div_max_bounds ha (by linarith)).1
    · norm_num
  · split_ifs with h
    · exact (div_max_bounds ha (by linarith)).2
    · norm_num

lemma sum_fin_ite_lt_nat {n G : ℕ} (hG : G ≤ n) (f : ℕ → ℕ) :
    ∑ i : Fin n, (if (i : ℕ) < G then f i else 0) = ∑ g ∈ Finset.range G, f g := by
  rw [Fin.sum_univ_eq_sum_range (fun i => if i < G then f i else 0) n,
    ← Finset.sum_filter]
  congr 1
  ext a
  simp only [Finset.mem_filter, Finset.mem_range]
  omega

lemma rejectStep_le_one (threshold track_iou : ℚ) (d : SequenceData) (g t : ℕ) :
    rejectStep threshold track_iou d g t ≤ 1 := by
  unfold rejectStep
  split_ifs <;> omega

lemma sinkFN_re_le (threshold track_iou : ℚ) (d : SequenceData)
    (σ : Fin (d.num_gt_ids + d.num_tracker_ids) →
         Fin (d.num_gt_ids + d.num_tracker_ids)) :
    sinkFN d σ + re_assigned threshold track_iou d σ ≤ d.num_gt_ids := by
  unfold sinkFN re_assigned
  rw [Finset.card_filter]
  have hsum : (∑ i : Fin (d.num_gt_ids + d.num_tracker_ids),
        if (i : ℕ) < d.num_gt_ids ∧ d.num_tracker_ids ≤ ((σ i : Fin _) : ℕ)
        then 1 else 0)
      + (∑ i : Fin (d.num_gt_ids + d.num_tracker_ids),
        if (i : ℕ) < d.num_gt_ids ∧ ((σ i : Fin _) : ℕ) < d.num_tracker_ids
        then rejectStep threshold track_iou d i (σ i) else 0)
      ≤ ∑ i : Fin (d.num_gt_ids + d.num_tracker_ids),
          if (i : ℕ) < d.num_gt_ids then 1 else 0 := by
    rw [← Finset.sum_add_distrib]
    refine Finset.sum_le_sum fun i _ => ?_
    by_cases h1 : (i : ℕ) < d.num_gt_ids
    · by_cases h2 : ((σ i : Fin _) : ℕ) < d.num_tracker_ids
      · rw [if_neg (fun hc => by omega), if_pos ⟨h1, h2⟩, if_pos h1]
        have hr := rejectStep_le_one threshold track_iou d i (σ i)
        omega
      · rw [if_pos ⟨h1, le_of_not_lt h2⟩, if_neg (fun hc => h2 hc.2), if_pos h1]
    · rw [if_neg (fun hc => h1 hc.1), if_neg (fun hc => h1 hc.1), if_neg h1]
  have hcard : (∑ i : Fin (d.num_gt_ids + d.num_tracker_ids),
      if (i : ℕ) < d.num_gt_ids then 1 else 0) = d.num_gt_ids := by
    rw [sum_fin_ite_lt_nat (Nat.le_add_right _ _) (fun _ => 1)]
    simp
  exact le_trans hsum (le_of_eq hcard)

/-- C9: for every well-formed sequence (under the size bound that makes the
detection-level penalty dominating, and with an optimal assignment for the
detection-level variant), both variants return results with exactly the six
fields of `MetricResult`, the three integer fields non-negative — in the
track-level variant `IDFN` never exceeds `numGtIdentities`, so `IDTP ≥ 0` —
and the three float fields in `[0, 1]`. -/
theorem C9_output_contract (threshold track_iou : ℚ) (d : SequenceData)
    (hwf : WellFormed d)
    (hsize : 3 * (d.num_gt_dets + d.num_tracker_dets) < 10 ^ 10)
    (σ σ' : Fin (d.num_gt_ids + d.num_tracker_ids) →
         Fin (d.num_gt_ids + d.num_tracker_ids))
    (hσ : IsOptimalAssignment (d.num_gt_ids + d.num_tracker_ids)
      (costID threshold d) σ) :
    ValidResult (Identity.eval_sequence threshold d σ)
    ∧ ValidResult (TrackIdentity.eval_sequence threshold track_iou d σ')
    ∧ (TrackIdentity.eval_sequence threshold track_iou d σ').IDFN
        ≤ (d.num_gt_ids : ℚ) := by
  constructor
  · by_cases hT : d.num_tracker_dets = 0
    · rw [Identity_eval_emptyTracker σ hT]
      exact cff_update_valid (le_refl 0) (Nat.cast_nonneg _) (le_refl 0)
    · by_cases hG : d.num_gt_dets = 0
      · rw [Identity_eval_emptyGt σ hT hG]
        exact cff_update_valid (le_refl 0) (le_refl 0) (Nat.cast_nonneg _)
      · have hgt : sumGtCount d = d.num_gt_dets := sum_gt_id_count hwf
        have htr : sumTrackerCount d = d.num_tracker_dets := sum_tracker_id_count hwf
        have hsize' : 3 * (sumGtCount d + sumTrackerCount d) < 10 ^ 10 := by
          rw [hgt, htr]
          exact hsize
        have hfn := sum_fn_mat_of_structure threshold
          (fun i hi => optimal_gt_structure hsize' hσ i hi)
        have hfp := sum_fp_mat_of_structure threshold hσ.1
          (fun i hi => optimal_tracker_structure hsize' hσ i hi)
        have hcast : (∑ g ∈ Finset.range d.num_gt_ids, (gt_id_count d g : ℚ))
            = (sumGtCount d : ℚ) := by
          unfold sumGtCount
          rw [Nat.cast_sum]
        rw [Identity_eval_main σ hT hG]
        refine cff_update_valid ?_ ?_ ?_
        · rw [hcast, hfn]
          linarith [matchVal_nonneg threshold d σ]
        · rw [hfn]
          linarith [matchVal_le_sumGtCount threshold d σ]
        · rw [hfp]
          linarith [matchVal_le_sumTrackerCount threshold d hσ.1]
  · by_cases hT : d.num_tracker_dets = 0
    · rw [Track_eval_emptyTracker σ' hT]
      constructor
      · unfold ValidResult
        exact ⟨le_refl _, Nat.cast_nonneg _, le_refl _, le_refl _, zero_le_one,
          le_refl _, zero_le_one, le_refl _, zero_le_one⟩
      · exact le_refl _
    · by_cases hG : d.num_gt_dets = 0
      · rw [Track_eval_emptyGt σ' hT hG]
        constructor
        · unfold ValidResult
          exact ⟨le_refl _, le_refl _, Nat.cast_nonneg _, le_refl _, zero_le_one,
            le_refl _, zero_le_one, le_refl _, zero_le_one⟩
        · exact Nat.cast_nonneg _
      · have hle := sinkFN_re_le threshold track_iou d σ'
        have hleQ : (sinkFN d σ' : ℚ) + re_assigned threshold track_iou d σ'
            ≤ (d.num_gt_ids : ℚ) := by
          exact_mod_cast hle
        have hnn : (0 : ℚ) ≤ (sinkFN d σ' : ℚ)
            + re_assigned threshold track_iou d σ' :=
          add_nonneg (Nat.cast_nonneg _) (Nat.cast_nonneg _)
        have hnn2 : (0 : ℚ) ≤ (sinkFP d σ' : ℚ)
            + re_assigned threshold track_iou d σ' :=
          add_nonneg (Nat.cast_nonneg _) (Nat.cast_nonneg _)
        rw [Track_eval_main σ' hT hG]
        constructor
        · refine cff_update_valid ?_ hnn hnn2
          linarith
        · rw [cff_update_IDFN]
          exact hleQ

/-- Witness for C9 on the concrete one-frame example sequence. -/
theorem C9_witness :
    ValidResult (Identity.eval_sequence 1 exSeq id) :=
  (C9_output_contract 1 (1 / 5) exSeq (by unfold WellFormed; decide) (by decide)
    id id (exSeq_id_optimal 1)).1

/-- Witness for C10 on the concrete one-frame example sequence. -/
theorem C10_witness :
    (1 : ℚ) ≤ ((gt_id_count exSeq 0 : ℚ) + tracker_id_count exSeq 0
        - 2 * potential_matches_count (1 / 2) exSeq 0 0)
        + potential_matches_count (1 / 2) exSeq 0 0 :=
  (C10_normalization_denominator (1 / 2) exSeq
    (by unfold WellFormed; decide) (by unfold AllIdsAppear; decide) 0 0
    (by decide) (by decide)).2.1

end TrackEval
